import Mathlib

/-
Verification of the probabilistic-physics core of the Inferaa particle simulator.

The development shallowly embeds, over the real numbers, the code of
`src/lib/kalman-filter.ts` (ExtendedKalmanFilter), `src/lib/collision.ts`
(CollisionSystem), `src/lib/particle.ts` (ParticleSystem),
`src/lib/bayesian-universe.ts` (HierarchicalBayesianUniverse) and
`src/lib/equation-discovery.ts` (EquationDiscovery), and proves or refutes
the specification's claims about them.  JavaScript `number` arithmetic is
modelled by exact real arithmetic; `Math.random()` draws and observation
noise are modelled as explicit parameters.
-/

namespace Inferaa

/- Real-number arithmetic (ordering, division, square roots) is classically
defined in Mathlib, so the embedded operations are noncomputable; all concrete
evaluations in the witnesses below are carried out symbolically. -/
noncomputable section

open Matrix

/-- Real matrices indexed by `Fin`. -/
abbrev Mat (m n : ℕ) := Matrix (Fin m) (Fin n) ℝ

/-- Embeds `ExtendedKalmanFilter.determinant3x3`, literally the code's cofactor formula. -/
def det3 (A : Mat 3 3) : ℝ :=
  A 0 0 * (A 1 1 * A 2 2 - A 1 2 * A 2 1) -
  A 0 1 * (A 1 0 * A 2 2 - A 1 2 * A 2 0) +
  A 0 2 * (A 1 0 * A 2 1 - A 1 1 * A 2 0)

/-- Embeds `ExtendedKalmanFilter.determinant4x4`, literally the code's first-row expansion. -/
def det4 (A : Mat 4 4) : ℝ :=
  A 0 0 * (A 1 1 * A 2 2 * A 3 3 - A 1 1 * A 2 3 * A 3 2 -
           A 1 2 * A 2 1 * A 3 3 + A 1 2 * A 2 3 * A 3 1 +
           A 1 3 * A 2 1 * A 3 2 - A 1 3 * A 2 2 * A 3 1) -
  A 0 1 * (A 1 0 * A 2 2 * A 3 3 - A 1 0 * A 2 3 * A 3 2 -
           A 1 2 * A 2 0 * A 3 3 + A 1 2 * A 2 3 * A 3 0 +
           A 1 3 * A 2 0 * A 3 2 - A 1 3 * A 2 2 * A 3 0) +
  A 0 2 * (A 1 0 * A 2 1 * A 3 3 - A 1 0 * A 2 3 * A 3 1 -
           A 1 1 * A 2 0 * A 3 3 + A 1 1 * A 2 3 * A 3 0 +
           A 1 3 * A 2 0 * A 3 1 - A 1 3 * A 2 1 * A 3 0) -
  A 0 3 * (A 1 0 * A 2 1 * A 3 2 - A 1 0 * A 2 2 * A 3 1 -
           A 1 1 * A 2 0 * A 3 2 + A 1 1 * A 2 2 * A 3 0 +
           A 1 2 * A 2 0 * A 3 1 - A 1 2 * A 2 1 * A 3 0)

/-- Embeds `ExtendedKalmanFilter.getMinor`: delete row `i` and column `j`, keeping order. -/
def minor4 (A : Mat 4 4) (i j : Fin 4) : Mat 3 3 :=
  A.submatrix i.succAbove j.succAbove

/-- Embeds `ExtendedKalmanFilter.adjugate4x4`: `adj[j][i] = (-1)^(i+j) * det3 (minor A i j)`. -/
def adj4 (A : Mat 4 4) : Mat 4 4 :=
  Matrix.of fun p q => (-1 : ℝ) ^ ((q : ℕ) + (p : ℕ)) * det3 (minor4 A q p)

/-- Embeds `ExtendedKalmanFilter.inverse` for the 4x4 case: fall back to the identity
when the determinant magnitude is below `1e-10`, otherwise divide the adjugate
entrywise by the determinant. -/
def inv4 (A : Mat 4 4) : Mat 4 4 :=
  if |det4 A| < 1e-10 then 1 else Matrix.of fun i j => adj4 A i j / det4 A

lemma det3_eq (A : Mat 3 3) : det3 A = A.det := by
  rw [Matrix.det_fin_three, det3]; ring

lemma succAbove_zero_eval : ∀ a : Fin 3, (0 : Fin 4).succAbove a = ![1, 2, 3] a := by
  decide

lemma succAbove_one_eval : ∀ a : Fin 3, (1 : Fin 4).succAbove a = ![0, 2, 3] a := by
  decide

lemma succAbove_two_eval : ∀ a : Fin 3, (2 : Fin 4).succAbove a = ![0, 1, 3] a := by
  decide

lemma succAbove_three_eval : ∀ a : Fin 3, (3 : Fin 4).succAbove a = ![0, 1, 2] a := by
  decide

lemma finSucc_eval : ∀ a : Fin 3, Fin.succ a = (![1, 2, 3] : Fin 3 → Fin 4) a := by
  decide

lemma val_two_fin_four : ((2 : Fin 4) : ℕ) = 2 := rfl

lemma val_three_fin_four : ((3 : Fin 4) : ℕ) = 3 := rfl

lemma det4_eq (A : Mat 4 4) : det4 A = A.det := by
  rw [Matrix.det_succ_row_zero]
  simp only [Fin.sum_univ_four, Matrix.det_fin_three, Matrix.submatrix_apply,
    succAbove_zero_eval, succAbove_one_eval, succAbove_two_eval, succAbove_three_eval,
    finSucc_eval, Matrix.cons_val_zero, Matrix.cons_val_one, Matrix.head_cons,
    Matrix.cons_val_two, Matrix.tail_cons, Matrix.cons_val_three,
    Fin.val_zero, Fin.val_one, val_two_fin_four, val_three_fin_four]
  rw [det4]
  norm_num
  ring

lemma adj4_eq (A : Mat 4 4) : adj4 A = A.adjugate := by
  ext i j
  rw [Matrix.adjugate_fin_succ_eq_det_submatrix]
  simp only [adj4, Matrix.of_apply, minor4, det3_eq]

/-- In the non-degenerate branch the code's routine returns the true inverse. -/
lemma inv4_eq_inv (A : Mat 4 4) (h : ¬ |det4 A| < 1e-10) : inv4 A = A⁻¹ := by
  have hdet : A.det ≠ 0 := by
    rw [← det4_eq]
    intro h0
    exact h (by rw [h0]; norm_num)
  rw [inv4, if_neg h, Matrix.inv_def, Ring.inverse_eq_inv]
  ext i j
  simp [adj4_eq, det4_eq, div_eq_mul_inv, mul_comm]

lemma det4_ne_zero (A : Mat 4 4) (h : ¬ |det4 A| < 1e-10) : A.det ≠ 0 := by
  rw [← det4_eq]
  intro h0
  exact h (by rw [h0]; norm_num)

lemma inv4_mul (A : Mat 4 4) (h : ¬ |det4 A| < 1e-10) : inv4 A * A = 1 := by
  rw [inv4_eq_inv A h]
  exact Matrix.nonsing_inv_mul A (Ne.isUnit (det4_ne_zero A h))

lemma mul_inv4 (A : Mat 4 4) (h : ¬ |det4 A| < 1e-10) : A * inv4 A = 1 := by
  rw [inv4_eq_inv A h]
  exact Matrix.mul_nonsing_inv A (Ne.isUnit (det4_ne_zero A h))

section VecEval

variable {α : Type*} (a b c d e f g : α)

lemma vec7_zero : (![a, b, c, d, e, f, g]) (0 : Fin 7) = a := rfl

lemma vec7_one : (![a, b, c, d, e, f, g]) (1 : Fin 7) = b := rfl

lemma vec7_two : (![a, b, c, d, e, f, g]) (2 : Fin 7) = c := rfl

lemma vec7_three : (![a, b, c, d, e, f, g]) (3 : Fin 7) = d := rfl

lemma vec7_four : (![a, b, c, d, e, f, g]) (4 : Fin 7) = e := rfl

lemma vec7_five : (![a, b, c, d, e, f, g]) (5 : Fin 7) = f := rfl

lemma vec7_six : (![a, b, c, d, e, f, g]) (6 : Fin 7) = g := rfl

lemma vec4_zero : (![a, b, c, d]) (0 : Fin 4) = a := rfl

lemma vec4_one : (![a, b, c, d]) (1 : Fin 4) = b := rfl

lemma vec4_two : (![a, b, c, d]) (2 : Fin 4) = c := rfl

lemma vec4_three : (![a, b, c, d]) (3 : Fin 4) = d := rfl

lemma vec7_mk_zero (h : 0 < 7) : (![a, b, c, d, e, f, g]) ⟨0, h⟩ = a := rfl

lemma vec7_mk_one (h : 1 < 7) : (![a, b, c, d, e, f, g]) ⟨1, h⟩ = b := rfl

lemma vec7_mk_two (h : 2 < 7) : (![a, b, c, d, e, f, g]) ⟨2, h⟩ = c := rfl

lemma vec7_mk_three (h : 3 < 7) : (![a, b, c, d, e, f, g]) ⟨3, h⟩ = d := rfl

lemma vec7_mk_four (h : 4 < 7) : (![a, b, c, d, e, f, g]) ⟨4, h⟩ = e := rfl

lemma vec7_mk_five (h : 5 < 7) : (![a, b, c, d, e, f, g]) ⟨5, h⟩ = f := rfl

lemma vec7_mk_six (h : 6 < 7) : (![a, b, c, d, e, f, g]) ⟨6, h⟩ = g := rfl

lemma vec4_mk_zero (h : 0 < 4) : (![a, b, c, d]) ⟨0, h⟩ = a := rfl

lemma vec4_mk_one (h : 1 < 4) : (![a, b, c, d]) ⟨1, h⟩ = b := rfl

lemma vec4_mk_two (h : 2 < 4) : (![a, b, c, d]) ⟨2, h⟩ = c := rfl

lemma vec4_mk_three (h : 3 < 4) : (![a, b, c, d]) ⟨3, h⟩ = d := rfl

end VecEval

lemma fin7_mk_val (k : ℕ) (h : k < 7) : ((⟨k, h⟩ : Fin 7) : ℕ) = k := rfl

lemma fin4_mk_val (k : ℕ) (h : k < 4) : ((⟨k, h⟩ : Fin 4) : ℕ) = k := rfl

lemma fin7_val_two : ((2 : Fin 7) : ℕ) = 2 := rfl

lemma fin7_val_three : ((3 : Fin 7) : ℕ) = 3 := rfl

lemma fin7_val_four : ((4 : Fin 7) : ℕ) = 4 := rfl

lemma fin7_val_five : ((5 : Fin 7) : ℕ) = 5 := rfl

lemma fin7_val_six : ((6 : Fin 7) : ℕ) = 6 := rfl

/-- The state of one `ExtendedKalmanFilter`: the 7 entries of the state vector
`[px, py, vx, vy, g, m, μ]`, the 7x7 covariance `P`, and the time step `dt`.
The process noise `Q` and measurement noise `R = 0.1` are the fixed constants
from the constructor. -/
structure KF where
  px : ℝ
  py : ℝ
  vx : ℝ
  vy : ℝ
  g : ℝ
  m : ℝ
  μ : ℝ
  P : Mat 7 7
  dt : ℝ

/-- The fixed diagonal process-noise matrix `Q` set up in the constructor. -/
def Qmat : Mat 7 7 :=
  Matrix.diagonal ![0.01, 0.01, 0.01, 0.01, 0.0001, 0.0001, 0.0001]

/-- The observation matrix `H` from `computeObservationMatrix`. -/
def Hmat : Mat 4 7 :=
  Matrix.of ![![1, 0, 0, 0, 0, 0, 0],
              ![0, 1, 0, 0, 0, 0, 0],
              ![0, 0, 1, 0, 0, 0, 0],
              ![0, 0, 0, 1, 0, 0, 0]]

/-- The Jacobian `F` from `computeJacobian`, evaluated at the current state. -/
def Fmat (k : KF) : Mat 7 7 :=
  Matrix.of ![![1, 0, k.dt, 0, 0, 0, 0],
              ![0, 1, 0, k.dt, -0.5 * k.dt * k.dt, 0, 0],
              ![0, 0, 1 - k.μ * k.dt, 0, 0, 0, -k.vx * k.dt],
              ![0, 0, 0, 1 - k.μ * k.dt, -k.dt, 0, -k.vy * k.dt],
              ![0, 0, 0, 0, 1, 0, 0],
              ![0, 0, 0, 0, 0, 1, 0],
              ![0, 0, 0, 0, 0, 0, 1]]

/-- Embeds `ExtendedKalmanFilter.predict`: apply the motion model to the state and
propagate the covariance as `F * P * Fᵀ + Q` (the Jacobian is computed at the
pre-update state, as in the code). -/
def predict (k : KF) : KF :=
  { k with
    px := k.px + k.vx * k.dt + 0.5 * 0 * k.dt * k.dt
    py := k.py + k.vy * k.dt - 0.5 * k.g * k.dt * k.dt
    vx := k.vx - k.μ * k.vx * k.dt
    vy := k.vy - k.g * k.dt - k.μ * k.vy * k.dt
    P := Fmat k * k.P * (Fmat k)ᵀ + Qmat }

/-- The innovation covariance `S = H * P * Hᵀ + R * I₄` formed in `update`. -/
def Smat (k : KF) : Mat 4 4 :=
  Hmat * k.P * Hmatᵀ + (0.1 : ℝ) • (1 : Mat 4 4)

/-- The Kalman gain `K = P * Hᵀ * S⁻¹` formed in `update` (using the code's
4x4 inverse routine with its identity fallback). -/
def Kmat (k : KF) : Mat 7 4 :=
  k.P * Hmatᵀ * inv4 (Smat k)

/-- Embeds `ExtendedKalmanFilter.update`: innovation, gain, additive state update with
the 0.1 parameter learning rate and hard clamps on `g`, `m`, `μ`, and the
covariance update `P ← (I - K * H) * P`. -/
def update (k : KF) (zx zy zvx zvy : ℝ) : KF :=
  let y : Fin 4 → ℝ := ![zx - k.px, zy - k.py, zvx - k.vx, zvy - k.vy]
  let Ky : Fin 7 → ℝ := (Kmat k).mulVec y
  { k with
    px := k.px + Ky 0
    py := k.py + Ky 1
    vx := k.vx + Ky 2
    vy := k.vy + Ky 3
    g := max 0 (min 20 (k.g + Ky 4 * 0.1))
    m := max 0.1 (min 10 (k.m + Ky 5 * 0.1))
    μ := max 0 (min 2 (k.μ + Ky 6 * 0.1))
    P := (1 - Kmat k * Hmat) * k.P }

/-- Embeds `ExtendedKalmanFilter.getVariance`: normalized covariance trace. -/
def getVariance (k : KF) : ℝ := k.P.trace / 7

/-- One call on the estimator's mutating interface. -/
inductive Op where
  | predict : Op
  | update (zx zy zvx zvy : ℝ) : Op

/-- Execute one call. -/
def step (k : KF) : Op → KF
  | .predict => predict k
  | .update zx zy zvx zvy => update k zx zy zvx zvy

/-- Execute a finite call sequence. -/
def run (k : KF) (ops : List Op) : KF := ops.foldl step k

/-- The constructor's initial covariance: `initialCovariance` on the whole
diagonal, then the `g`/`m`/`μ` entries overridden to 5, 2, 1. -/
def initP (c : ℝ) : Mat 7 7 := Matrix.diagonal ![c, c, c, c, 5, 2, 1]

/-- The `ExtendedKalmanFilter` constructor. -/
def mkFilter (px py vx vy g m μ c dt : ℝ) : KF :=
  ⟨px, py, vx, vy, g, m, μ, initP c, dt⟩

/-! ### Collision system and particle system -/

/-- A 3D vector, the JS `{x, y, z}` object. -/
structure V3 where
  x : ℝ
  y : ℝ
  z : ℝ

/-- One point of a particle trail: position plus scalar variance. -/
structure TrailPoint where
  pos : V3
  variance : ℝ

/-- A `Particle` record: identity, true kinematic state, owned filter,
derived variance, bounded trail and age. -/
structure SParticle where
  pid : String
  position : V3
  velocity : V3
  filter : KF
  variance : ℝ
  trail : List TrailPoint
  age : ℝ

/-- A `CollisionEvent`; `particle2` holds the other id or the string
`boundary`. -/
structure CollisionEvent where
  particle1 : String
  particle2 : String
  position : V3
  velocity : V3
  impact : ℝ

/-- The body of the inner loop of `CollisionSystem.checkParticleCollisions`
for one (ordered) pair: detect overlap, skip separating pairs, apply the
equal-mass elastic impulse to both velocities, separate the positions, and
report an event when the impact exceeds the 0.5 threshold. -/
def resolvePair (p1 p2 : SParticle) : SParticle × SParticle × Option CollisionEvent :=
  let dx := p2.position.x - p1.position.x
  let dy := p2.position.y - p1.position.y
  let dz := p2.position.z - p1.position.z
  let distance := Real.sqrt (dx * dx + dy * dy + dz * dz)
  if distance < 0.4 * 2 ∧ distance > 0.01 then
    let nx := dx / distance
    let ny := dy / distance
    let nz := dz / distance
    let rvx := p2.velocity.x - p1.velocity.x
    let rvy := p2.velocity.y - p1.velocity.y
    let rvz := p2.velocity.z - p1.velocity.z
    let velAlongNormal := rvx * nx + rvy * ny + rvz * nz
    if velAlongNormal > 0 then (p1, p2, none)
    else
      let impulse := -(1 + 0.8) * velAlongNormal
      let impulseX := impulse * nx * 0.5
      let impulseY := impulse * ny * 0.5
      let impulseZ := impulse * nz * 0.5
      let overlap := 0.4 * 2 - distance
      let separationX := nx * overlap * 0.5
      let separationY := ny * overlap * 0.5
      let separationZ := nz * overlap * 0.5
      let q1 : SParticle := { p1 with
        velocity := ⟨p1.velocity.x - impulseX, p1.velocity.y - impulseY,
                     p1.velocity.z - impulseZ⟩,
        position := ⟨p1.position.x - separationX, p1.position.y - separationY,
                     p1.position.z - separationZ⟩ }
      let q2 : SParticle := { p2 with
        velocity := ⟨p2.velocity.x + impulseX, p2.velocity.y + impulseY,
                     p2.velocity.z + impulseZ⟩,
        position := ⟨p2.position.x + separationX, p2.position.y + separationY,
                     p2.position.z + separationZ⟩ }
      let impactStrength := |velAlongNormal|
      if impactStrength > 0.5 then
        (q1, q2,
         some ⟨p1.pid, p2.pid,
               ⟨(q1.position.x + q2.position.x) / 2, (q1.position.y + q2.position.y) / 2,
                (q1.position.z + q2.position.z) / 2⟩,
               ⟨(q1.velocity.x + q2.velocity.x) / 2, (q1.velocity.y + q2.velocity.y) / 2,
                (q1.velocity.z + q2.velocity.z) / 2⟩,
               impactStrength⟩)
      else (q1, q2, none)
  else (p1, p2, none)

/-- The inner `j` loop: resolve `p` against each later particle in order,
threading the mutations of `p` and of the later particles. -/
def resolveAgainst (p : SParticle) :
    List SParticle → SParticle × List SParticle × List CollisionEvent
  | [] => (p, [], [])
  | q :: rest =>
      let r1 := resolvePair p q
      let r2 := resolveAgainst r1.1 rest
      (r2.1, r1.2.1 :: r2.2.1, r1.2.2.toList ++ r2.2.2)

lemma resolveAgainst_length (p : SParticle) (l : List SParticle) :
    (resolveAgainst p l).2.1.length = l.length := by
  induction l generalizing p with
  | nil => rfl
  | cons q rest ih => simp [resolveAgainst, ih]

/-- Embeds `CollisionSystem.checkParticleCollisions`: the `i < j` double loop in
insertion order, mutating the array in place and collecting the events. -/
def checkParticleCollisions :
    List SParticle → List SParticle × List CollisionEvent
  | [] => ([], [])
  | p :: rest =>
      let r1 := resolveAgainst p rest
      let r2 := checkParticleCollisions r1.2.1
      (r1.1 :: r2.1, r1.2.2 ++ r2.2)
  termination_by ps => ps.length
  decreasing_by simp [resolveAgainst_length]

/-- Embeds `CollisionSystem.checkBoundaryCollision` with the fixed bounds `[-5, 5]`:
classify the per-axis impact of a particle at the walls and report it only if
its magnitude exceeds 0.5.  (The caller applies the bounce itself.) -/
def checkBoundaryCollision (p : SParticle) : Option CollisionEvent :=
  let ix := if (p.position.x ≤ -5 ∧ p.velocity.x < 0) ∨
               (p.position.x ≥ 5 ∧ p.velocity.x > 0) then |p.velocity.x| else 0
  let iy := if (p.position.y ≤ -5 ∧ p.velocity.y < 0) ∨
               (p.position.y ≥ 5 ∧ p.velocity.y > 0) then |p.velocity.y| else 0
  let iz := if (p.position.z ≤ -5 ∧ p.velocity.z < 0) ∨
               (p.position.z ≥ 5 ∧ p.velocity.z > 0) then |p.velocity.z| else 0
  let collided := ((p.position.x ≤ -5 ∧ p.velocity.x < 0) ∨
                   (p.position.x ≥ 5 ∧ p.velocity.x > 0)) ∨
                  ((p.position.y ≤ -5 ∧ p.velocity.y < 0) ∨
                   (p.position.y ≥ 5 ∧ p.velocity.y > 0)) ∨
                  ((p.position.z ≤ -5 ∧ p.velocity.z < 0) ∨
                   (p.position.z ≥ 5 ∧ p.velocity.z > 0))
  let totalImpact := Real.sqrt (ix * ix + iy * iy + iz * iz)
  if collided ∧ totalImpact > 0.5 then
    some ⟨p.pid, "boundary", p.position, p.velocity, totalImpact⟩
  else none

/-- The `x`-axis boundary clamp of `ParticleSystem.update`: clamp the
position, flip and damp the inward velocity, and (after the flip, as in the
code) ask the collision system for a reportable event. -/
def applyBoundsX (p : SParticle) : SParticle × List CollisionEvent :=
  if p.position.x < -5 then
    let p1 : SParticle := { p with position := ⟨-5, p.position.y, p.position.z⟩ }
    if p1.velocity.x < 0 then
      let p2 : SParticle := { p1 with
        velocity := ⟨p1.velocity.x * -(0.85), p1.velocity.y, p1.velocity.z⟩ }
      (p2, (checkBoundaryCollision p2).toList)
    else (p1, [])
  else if p.position.x > 5 then
    let p1 : SParticle := { p with position := ⟨5, p.position.y, p.position.z⟩ }
    if p1.velocity.x > 0 then
      let p2 : SParticle := { p1 with
        velocity := ⟨p1.velocity.x * -(0.85), p1.velocity.y, p1.velocity.z⟩ }
      (p2, (checkBoundaryCollision p2).toList)
    else (p1, [])
  else (p, [])

/-- The `y`-axis boundary clamp of `ParticleSystem.update`. -/
def applyBoundsY (p : SParticle) : SParticle × List CollisionEvent :=
  if p.position.y < -5 then
    let p1 : SParticle := { p with position := ⟨p.position.x, -5, p.position.z⟩ }
    if p1.velocity.y < 0 then
      let p2 : SParticle := { p1 with
        velocity := ⟨p1.velocity.x, p1.velocity.y * -(0.85), p1.velocity.z⟩ }
      (p2, (checkBoundaryCollision p2).toList)
    else (p1, [])
  else if p.position.y > 5 then
    let p1 : SParticle := { p with position := ⟨p.position.x, 5, p.position.z⟩ }
    if p1.velocity.y > 0 then
      let p2 : SParticle := { p1 with
        velocity := ⟨p1.velocity.x, p1.velocity.y * -(0.85), p1.velocity.z⟩ }
      (p2, (checkBoundaryCollision p2).toList)
    else (p1, [])
  else (p, [])

/-- The `z`-axis boundary clamp of `ParticleSystem.update` (no events). -/
def applyBoundsZ (p : SParticle) : SParticle :=
  if p.position.z < -5 then
    let p1 : SParticle := { p with position := ⟨p.position.x, p.position.y, -5⟩ }
    if p1.velocity.z < 0 then
      { p1 with velocity := ⟨p1.velocity.x, p1.velocity.y, p1.velocity.z * -(0.85)⟩ }
    else p1
  else if p.position.z > 5 then
    let p1 : SParticle := { p with position := ⟨p.position.x, p.position.y, 5⟩ }
    if p1.velocity.z > 0 then
      { p1 with velocity := ⟨p1.velocity.x, p1.velocity.y, p1.velocity.z * -(0.85)⟩ }
    else p1
  else p

/-- Embeds `ParticleSystem.applyPhysics`: the true motion under the hidden constants
(gravity 9.8, friction 0.1), returning the observed components
`(px, py, vx, vy)`. -/
def applyPhysics (p : SParticle) : ℝ × ℝ × ℝ × ℝ :=
  (p.position.x + p.velocity.x * 0.016,
   p.position.y + p.velocity.y * 0.016 - 0.5 * 9.8 * 0.016 * 0.016,
   p.velocity.x - 0.1 * p.velocity.x * 0.016,
   p.velocity.y - 9.8 * 0.016 - 0.1 * p.velocity.y * 0.016)

/-- Four raw `Math.random()` draws in `[0,1)` used for one particle's
observation noise in one tick. -/
structure Rand4 where
  r1 : ℝ
  r2 : ℝ
  r3 : ℝ
  r4 : ℝ

/-- The noisy observation fed to the estimator: the true next state plus the
uniform `(r - 0.5) * 0.01` observation noise on each component. -/
def tickObs (p : SParticle) (nz : Rand4) : ℝ × ℝ × ℝ × ℝ :=
  let t := applyPhysics p
  (t.1 + (nz.r1 - 0.5) * 0.01, t.2.1 + (nz.r2 - 0.5) * 0.01,
   t.2.2.1 + (nz.r3 - 0.5) * 0.01, t.2.2.2 + (nz.r4 - 0.5) * 0.01)

/-- The particle's filter after one tick: Kalman predict, then the Kalman
correction on the noisy observation when `learningEnabled` holds. -/
def tickFilter (learn : Bool) (p : SParticle) (nz : Rand4) : KF :=
  let o := tickObs p nz
  if learn then update (predict p.filter) o.1 o.2.1 o.2.2.1 o.2.2.2
  else predict p.filter

/-- The per-particle body of `ParticleSystem.update`: Kalman predict, true
physics, noisy observation, optional Kalman correction (the
`learningEnabled` branch), copy-back of the filter state into the particle,
trail push with capacity 50, and the boundary clamps. -/
def tickParticle (learn : Bool) (p : SParticle) (nz : Rand4) :
    SParticle × List CollisionEvent :=
  let f2 := tickFilter learn p nz
  let pos1 : V3 := ⟨f2.px, f2.py, p.position.z⟩
  let vel1 : V3 := ⟨f2.vx, f2.vy, p.velocity.z⟩
  let trail1 := p.trail ++ [⟨pos1, getVariance f2⟩]
  let trail2 := if trail1.length > 50 then trail1.tail else trail1
  let base : SParticle := { p with
    position := pos1, velocity := vel1, filter := f2,
    variance := getVariance f2, trail := trail2, age := p.age + 0.016 }
  let bx := applyBoundsX base
  let by' := applyBoundsY bx.1
  (applyBoundsZ by'.1, bx.2 ++ by'.2)

/-- Embeds `ParticleSystem.update` (tick): resolve particle-particle collisions
first, then run every particle's estimator/physics step in insertion order,
collecting the boundary events after the collision events. -/
def psUpdate (learn : Bool) (ps : List SParticle) (nzs : List Rand4) :
    List SParticle × List CollisionEvent :=
  let r1 := checkParticleCollisions ps
  let stepped := List.zipWith (tickParticle learn) r1.1 nzs
  (stepped.map Prod.fst, r1.2 ++ (stepped.map Prod.snd).flatten)

/-- Embeds `ParticleSystem.createParticle` with the three `Math.random()` draws made
explicit: clamped randomized initial beliefs, initial covariance 10,
`dt = 0.016`. -/
def createParticle (id : String) (pos vel : V3) (r1 r2 r3 : ℝ) : SParticle :=
  let g0 := max 0 (min 20 (9.8 + (r1 - 0.5) * 10))
  let m0 := max 0.1 (min 10 (1.0 + (r2 - 0.5) * 2))
  let μ0 := max 0 (min 2 (0.1 + (r3 - 0.5) * 0.5))
  let f := mkFilter pos.x pos.y vel.x vel.y g0 m0 μ0 10 0.016
  ⟨id, pos, vel, f, getVariance f, [], 0⟩

/-- Componentwise sum of all particle velocities (total momentum under the
equal-mass assumption). -/
def velSum (ps : List SParticle) : V3 :=
  ⟨(ps.map fun p => p.velocity.x).sum,
   (ps.map fun p => p.velocity.y).sum,
   (ps.map fun p => p.velocity.z).sum⟩

/-! ### Equation discovery -/

/-- A 2D vector, the JS `{x, y}` object. -/
structure V2 where
  x : ℝ
  y : ℝ

/-- One entry of the `EquationDiscovery` observation buffer. -/
structure Obs where
  position : V2
  velocity : V2
  acceleration : V2
  time : ℝ

/-- One `(name, value, confidence)` parameter of a discovered equation. -/
structure EqParam where
  pname : String
  value : ℝ
  confidence : ℝ

/-- A `DiscoveredEquation` record.  (The primes of the JS form strings are
rendered with Unicode prime characters.) -/
structure DiscoveredEquation where
  form : String
  parameters : List EqParam
  rSquared : ℝ
  complexity : ℕ

/-- Embeds `EquationDiscovery.addObservation`: append, evicting the oldest entry
beyond capacity 500. -/
def addObservation (obs : List Obs) (o : Obs) : List Obs :=
  let l := obs ++ [o]
  if l.length > 500 then l.tail else l

/-- Embeds `EquationDiscovery.discoverGravityEquation`. -/
def discoverGravityEquation (obs : List Obs) : Option DiscoveredEquation :=
  if obs.length < 10 then none
  else
    let yAcc := obs.map fun o => o.acceleration.y
    let meanAccel := yAcc.sum / (yAcc.length : ℝ)
    let discoveredG := -meanAccel
    let ssRes := (yAcc.map fun a => (a - -discoveredG) ^ 2).sum
    let ssTot := (yAcc.map fun a => (a - meanAccel) ^ 2).sum
    let rSquared := if ssTot > 0 then 1 - ssRes / ssTot else 0
    let confidence := min 1 (rSquared * ((obs.length : ℝ) / 100))
    some ⟨"y″ = -g", [⟨"g", discoveredG, confidence⟩], rSquared, 1⟩

/-- Embeds `EquationDiscovery.discoverVelocityEquation`: closed-form simple linear
regression of the y-velocities against the synthetic time axis `i * 0.016`. -/
def discoverVelocityEquation (obs : List Obs) : Option DiscoveredEquation :=
  if obs.length < 10 then none
  else
    let velocities := obs.map fun o => o.velocity.y
    let times := (List.range obs.length).map fun i => (i : ℝ) * 0.016
    let sumT := times.sum
    let sumV := velocities.sum
    let sumTV := (List.zipWith (fun t v => t * v) times velocities).sum
    let sumT2 := (times.map fun t => t * t).sum
    let n := (velocities.length : ℝ)
    let slope := (n * sumTV - sumT * sumV) / (n * sumT2 - sumT * sumT)
    let intercept := (sumV - slope * sumT) / n
    let predicted := times.map fun t => intercept + slope * t
    let ssRes := (List.zipWith (fun v p => (v - p) ^ 2) velocities predicted).sum
    let ssTot := (velocities.map fun v => (v - sumV / n) ^ 2).sum
    let rSquared := if ssTot > 0 then 1 - ssRes / ssTot else 0
    some ⟨"v = v₀ + at", [⟨"v₀", intercept, rSquared⟩, ⟨"a", slope, rSquared⟩],
          rSquared, 2⟩

/-- Embeds `EquationDiscovery.discoverPositionEquation`: the simplified estimator
which reads `y₀`, `v₀` from the first samples and infers the acceleration
from first-to-last velocity change.  (The unused normal-equation accumulators
of the source are dead locals and are not modelled.) -/
def discoverPositionEquation (obs : List Obs) : Option DiscoveredEquation :=
  if obs.length < 20 then none
  else
    let positions := obs.map fun o => o.position.y
    let velocities := obs.map fun o => o.velocity.y
    let times := (List.range obs.length).map fun i => (i : ℝ) * 0.016
    let n := (positions.length : ℝ)
    let sumY := positions.sum
    let v0 := velocities.headD 0
    let y0 := positions.headD 0
    let velocityChange :=
      if velocities.length > 1 then (velocities.getLast?.getD 0) - velocities.headD 0
      else 0
    let totalTime := (times.getLast?.getD 0) - times.headD 0
    let a := if totalTime > 0 then velocityChange / totalTime else 0
    let predicted := times.map fun t => y0 + v0 * t + 0.5 * a * t * t
    let ssRes := (List.zipWith (fun y p => (y - p) ^ 2) positions predicted).sum
    let ssTot := (positions.map fun y => (y - sumY / n) ^ 2).sum
    let rSquared := if ssTot > 0 then 1 - ssRes / ssTot else 0
    some ⟨"y = y₀ + v₀t + ½at²",
          [⟨"y₀", y0, rSquared⟩, ⟨"v₀", v0, rSquared⟩, ⟨"a", a, rSquared⟩],
          rSquared, 3⟩

/-! ### Hierarchical Bayesian aggregator -/

/-- A per-particle belief record `{g, m, μ, variance}`. -/
structure Belief where
  g : ℝ
  m : ℝ
  μ : ℝ
  variance : ℝ

/-- The posterior record for one physical constant. -/
structure ConstPosterior where
  mean : ℝ
  variance : ℝ
  samples : List ℝ
  entropy : ℝ

/-- The `GlobalPosterior` record of the aggregator. -/
structure GlobalPosterior where
  gravity : ConstPosterior
  mass : ConstPosterior
  friction : ConstPosterior
  consensusStrength : ℝ
  informationGain : ℝ

/-- Embeds `HierarchicalBayesianUniverse.calculateEntropy`:
`H = 0.5·ln(2πeσ²)`, defined as 0 for nonpositive variance. -/
def calculateEntropy (v : ℝ) : ℝ :=
  if v ≤ 0 then 0 else 0.5 * Real.log (2 * Real.pi * Real.exp 1 * v)

/-- Embeds `HierarchicalBayesianUniverse.calculateVariance`: raw sample variance,
0 on the empty list. -/
def calculateVariance (samples : List ℝ) : ℝ :=
  if samples.length = 0 then 0
  else
    let mean := samples.sum / (samples.length : ℝ)
    ((samples.map fun x => (x - mean) ^ 2).sum) / (samples.length : ℝ)

/-- The aggregator constructor's initial global posterior. -/
def initGlobalPosterior : GlobalPosterior :=
  ⟨⟨9.8, 25.0, [], calculateEntropy 25.0⟩,
   ⟨1.0, 4.0, [], calculateEntropy 4.0⟩,
   ⟨0.1, 1.0, [], calculateEntropy 1.0⟩, 0, 0⟩

/-- JS `Map.set` on an association list in insertion order: replace in place
if the key exists, else append. -/
def setBelief : List (String × Belief) → String → Belief → List (String × Belief)
  | [], id, b => [(id, b)]
  | (k, v) :: rest, id, b =>
      if k = id then (k, b) :: rest else (k, v) :: setBelief rest id b

/-- The per-constant computation repeated in `updateGlobalPosterior` for
gravity, mass and friction: inverse-variance-weighted mean, harmonic-mean
within-variance plus between-particle sample variance, returned as
`(weightedMean, totalVariance, betweenVariance)`. -/
def aggOne (samples variances : List ℝ) : ℝ × ℝ × ℝ :=
  let weights := variances.map fun v => 1 / (v + 0.01)
  let weightSum := weights.sum
  let weightedMean := (List.zipWith (fun s w => s * w) samples weights).sum / weightSum
  let harmonic := (variances.length : ℝ) / weightSum
  let between := calculateVariance samples
  (weightedMean, harmonic + between, between)

/-- Embeds `HierarchicalBayesianUniverse.updateGlobalPosterior`: registers the given
belief first (`Map.set`), then recomputes the posterior from all registered
beliefs; the `samples.length == 0` guard is kept as in the code.  Returns the
new posterior and belief map.  (The snapshot pushed onto the bounded history
feeds only the convergence metrics and is not modelled.) -/
def updateGlobalPosterior (gp : GlobalPosterior) (beliefs : List (String × Belief))
    (id : String) (b : Belief) : GlobalPosterior × List (String × Belief) :=
  let m' := setBelief beliefs id b
  let gSamples := m'.map fun kv => kv.2.g
  let mSamples := m'.map fun kv => kv.2.m
  let μSamples := m'.map fun kv => kv.2.μ
  let variances := m'.map fun kv => kv.2.variance
  if gSamples.length = 0 then (gp, m')
  else
    let ag := aggOne gSamples variances
    let am := aggOne mSamples variances
    let aμ := aggOne μSamples variances
    let gE := calculateEntropy ag.2.1
    let mE := calculateEntropy am.2.1
    let μE := calculateEntropy aμ.2.1
    let consensus := (1 / (1 + ag.2.2) + 1 / (1 + am.2.2) + 1 / (1 + aμ.2.2)) / 3
    let infoGain := gp.informationGain +
      (max 0 (gp.gravity.entropy - gE) + max 0 (gp.mass.entropy - mE) +
       max 0 (gp.friction.entropy - μE)) / 3
    (⟨⟨ag.1, ag.2.1, gSamples, gE⟩, ⟨am.1, am.2.1, mSamples, mE⟩,
      ⟨aμ.1, aμ.2.1, μSamples, μE⟩, consensus, infoGain⟩, m')

/-! ### Query surface: copies versus aliases (heap model)

Object identity is modelled by indexing the mutable `Particle` objects owned
by the `ParticleSystem` map: a reference is an index into the store.
`Array.from(this.particles.values())` builds a fresh array whose elements are
the stored objects themselves, so `getParticles` hands out references into
the store; a caller mutating a returned particle is a store write.  The
estimator getters (`getState` via object spread of numeric fields,
`getCovariance` and `getGlobalPosterior` via a JSON round trip) return plain
values holding no reference into the store. -/

/-- The particle store of a `ParticleSystem` (JS `Map` values in insertion
order); addresses are positions. -/
structure PSysState where
  store : List SParticle

/-- Embeds `ParticleSystem.getParticles`: the returned array's elements alias the
stored objects — modelled as the list of their addresses. -/
def getParticlesRefs (s : PSysState) : List ℕ := List.range s.store.length

/-- A caller mutation performed through a reference returned by
`getParticles`: it writes the system's own store. -/
def heapWrite (s : PSysState) (r : ℕ) (p : SParticle) : PSysState :=
  ⟨s.store.set r p⟩

/-- The `StateVector` value returned by `ExtendedKalmanFilter.getState`
(a spread copy of the seven numeric fields: a value, not a reference). -/
structure StateVector where
  px : ℝ
  py : ℝ
  vx : ℝ
  vy : ℝ
  g : ℝ
  m : ℝ
  μ : ℝ

/-- Embeds `ExtendedKalmanFilter.getState`. -/
def getState (k : KF) : StateVector := ⟨k.px, k.py, k.vx, k.vy, k.g, k.m, k.μ⟩

/-- Embeds `ExtendedKalmanFilter.getCovariance`: the JSON round trip yields a fresh
object with the same entries — a value. -/
def getCovariance (k : KF) : Mat 7 7 := k.P

/-- A demonstration system holding one spawned particle at the origin. -/
def demoSys : PSysState := ⟨[createParticle "p" ⟨0, 0, 0⟩ ⟨0, 0, 0⟩ 0.5 0.5 0.5]⟩

/-- The caller's mutation: set the returned particle's `position.x` to 42. -/
def demoMutant : SParticle :=
  { createParticle "p" ⟨0, 0, 0⟩ ⟨0, 0, 0⟩ 0.5 0.5 0.5 with position := ⟨42, 0, 0⟩ }

lemma getD_set_self {α : Type*} (l : List α) (r : ℕ) (p d : α) (h : r < l.length) :
    (l.set r p).getD r d = p := by
  induction l generalizing r with
  | nil => simp at h
  | cons a t ih =>
    cases r with
    | zero => rfl
    | succ n =>
      simp only [List.set_cons_succ, List.getD_cons_succ]
      exact ih n (by simpa using h)

/-! ### The two-particle collision scenario -/

/-- Scenario particle 1: spawned at `(-0.15, 0, 0)` with velocity `(1, 0, 0)`,
with the centered belief draws (`Math.random() = 0.5`, so beliefs
`g = 9.8`, `m = 1`, `μ = 0.1`). -/
def c8p1 : SParticle := createParticle "p1" ⟨-0.15, 0, 0⟩ ⟨1, 0, 0⟩ 0.5 0.5 0.5

/-- Scenario particle 2: spawned at `(0.15, 0, 0)` with velocity `(-1, 0, 0)`. -/
def c8p2 : SParticle := createParticle "p2" ⟨0.15, 0, 0⟩ ⟨-1, 0, 0⟩ 0.5 0.5 0.5

/-- Centered observation-noise draws (`Math.random() = 0.5`: zero noise). -/
def c8nz : Rand4 := ⟨0.5, 0.5, 0.5, 0.5⟩

/-- One tick of the scenario with learning DISABLED. -/
def c8TickOff : List SParticle × List CollisionEvent :=
  psUpdate false [c8p1, c8p2] [c8nz, c8nz]

/-- Particle 1 after the collision-resolution phase: half-impulse `1.8`
applied against its motion, positions separated to contact distance. -/
def c8q1 : SParticle := { c8p1 with velocity := ⟨-0.8, 0, 0⟩, position := ⟨-0.4, 0, 0⟩ }

/-- Particle 2 after the collision-resolution phase. -/
def c8q2 : SParticle := { c8p2 with velocity := ⟨0.8, 0, 0⟩, position := ⟨0.4, 0, 0⟩ }

/-- The collision event of the pair: impact `|v_rel·n| = 2`. -/
def c8ev : CollisionEvent := ⟨"p1", "p2", ⟨0, 0, 0⟩, ⟨0, 0, 0⟩, 2⟩

/-- All four raw draws of a tick's observation noise lie in `[0, 1]`
(the range of `Math.random()`). -/
def rand4InRange (nz : Rand4) : Prop :=
  0 ≤ nz.r1 ∧ nz.r1 ≤ 1 ∧ 0 ≤ nz.r2 ∧ nz.r2 ≤ 1 ∧
  0 ≤ nz.r3 ∧ nz.r3 ≤ 1 ∧ 0 ≤ nz.r4 ∧ nz.r4 ≤ 1

/-- When the post-filter position stays inside the box, the boundary clamps
are no-ops: the tick returns the filter's velocity and no boundary events. -/
lemma tickParticle_noClamp (learn : Bool) (p : SParticle) (nz : Rand4)
    (hx1 : ¬ (tickFilter learn p nz).px < -5) (hx2 : ¬ (tickFilter learn p nz).px > 5)
    (hy1 : ¬ (tickFilter learn p nz).py < -5) (hy2 : ¬ (tickFilter learn p nz).py > 5)
    (hz1 : ¬ p.position.z < -5) (hz2 : ¬ p.position.z > 5) :
    (tickParticle learn p nz).1.velocity =
      ⟨(tickFilter learn p nz).vx, (tickFilter learn p nz).vy, p.velocity.z⟩ ∧
    (tickParticle learn p nz).2 = [] := by
  rw [tickParticle]
  constructor <;>
    simp only [applyBoundsX, applyBoundsY, applyBoundsZ, hx1, hx2, hy1, hy2, hz1, hz2,
      if_false, List.append_nil, List.nil_append]

/-! ### Positive semidefiniteness of the covariance -/

lemma conjT_eq {m n : ℕ} (A : Mat m n) : Aᴴ = Aᵀ :=
  Matrix.conjTranspose_eq_transpose_of_trivial A

lemma psd_smul {n : ℕ} {M : Mat n n} (hM : M.PosSemidef) {c : ℝ} (hc : 0 ≤ c) :
    (c • M).PosSemidef := by
  constructor
  · show (c • M)ᴴ = c • M
    rw [Matrix.conjTranspose_smul, star_trivial, hM.1.eq]
  · intro x
    have h2 := mul_nonneg hc (hM.2 x)
    calc (0 : ℝ) ≤ c * dotProduct (star x) (M *ᵥ x) := h2
    _ = dotProduct (star x) ((c • M) *ᵥ x) := by
        rw [Matrix.smul_mulVec_assoc, Matrix.dotProduct_smul, smul_eq_mul]

lemma psd_det_nonneg {n : ℕ} {M : Mat n n} (hM : M.PosSemidef) : 0 ≤ M.det := by
  obtain ⟨B, hB⟩ := Matrix.posSemidef_iff_eq_transpose_mul_self.mp hM
  rw [hB, Matrix.det_mul, conjT_eq B, Matrix.det_transpose]
  exact mul_self_nonneg _

lemma psd_diag {n : ℕ} {M : Mat n n} (hM : M.PosSemidef) (i : Fin n) : 0 ≤ M i i := by
  have h := psd_det_nonneg (hM.submatrix (![i] : Fin 1 → Fin n))
  rwa [Matrix.det_fin_one, Matrix.submatrix_apply, Matrix.cons_val_zero] at h

lemma Qmat_psd : Qmat.PosSemidef := by
  rw [Qmat]
  refine Matrix.posSemidef_diagonal_iff.mpr ?_
  intro i
  fin_cases i <;> norm_num

lemma initP_psd {c : ℝ} (hc : 0 ≤ c) : (initP c).PosSemidef := by
  rw [initP]
  refine Matrix.posSemidef_diagonal_iff.mpr ?_
  intro i
  fin_cases i <;> norm_num [hc]

lemma predict_psd {k : KF} (h : k.P.PosSemidef) : (predict k).P.PosSemidef := by
  show (Fmat k * k.P * (Fmat k)ᵀ + Qmat).PosSemidef
  refine Matrix.PosSemidef.add ?_ Qmat_psd
  have h2 := h.mul_mul_conjTranspose_same (Fmat k)
  rwa [conjT_eq] at h2

lemma Smat_eq (k : KF) : Smat k = Hmat * k.P * Hmatᵀ + (0.1 : ℝ) • 1 := rfl

lemma HPHt_psd {k : KF} (h : k.P.PosSemidef) : (Hmat * k.P * Hmatᵀ).PosSemidef := by
  have h2 := h.mul_mul_conjTranspose_same Hmat
  rwa [conjT_eq] at h2

lemma psd_minor2 {A : Mat 4 4} (hA : A.PosSemidef) (i j : Fin 4) :
    0 ≤ A i i * A j j - A i j * A j i := by
  have hdet := psd_det_nonneg (hA.submatrix (![i, j] : Fin 2 → Fin 4))
  rw [Matrix.det_fin_two] at hdet
  simpa [Matrix.submatrix_apply] using hdet

lemma psd_minor3 {A : Mat 4 4} (hA : A.PosSemidef) (i : Fin 4) :
    0 ≤ det3 (minor4 A i i) := by
  rw [det3_eq, minor4]
  exact psd_det_nonneg (hA.submatrix _)

set_option maxHeartbeats 2000000 in
/-- Characteristic-polynomial expansion of the code's determinant at `A + c•I`:
the coefficients are the sums of principal minors of each size. -/
lemma det4_add_smul_one (A : Mat 4 4) (c : ℝ) :
    det4 (A + c • 1) =
      det4 A
      + c * (det3 (minor4 A 0 0) + det3 (minor4 A 1 1)
           + det3 (minor4 A 2 2) + det3 (minor4 A 3 3))
      + c ^ 2 * ((A 0 0 * A 1 1 - A 0 1 * A 1 0) + (A 0 0 * A 2 2 - A 0 2 * A 2 0)
               + (A 0 0 * A 3 3 - A 0 3 * A 3 0) + (A 1 1 * A 2 2 - A 1 2 * A 2 1)
               + (A 1 1 * A 3 3 - A 1 3 * A 3 1) + (A 2 2 * A 3 3 - A 2 3 * A 3 2))
      + c ^ 3 * (A 0 0 + A 1 1 + A 2 2 + A 3 3) + c ^ 4 := by
  simp only [det4, det3, minor4, Matrix.submatrix_apply,
    succAbove_zero_eval, succAbove_one_eval, succAbove_two_eval, succAbove_three_eval,
    Matrix.cons_val_zero, Matrix.cons_val_one, Matrix.head_cons, Matrix.cons_val_two,
    Matrix.tail_cons, Matrix.add_apply, Matrix.smul_apply, Matrix.one_apply, smul_eq_mul]
  norm_num [Fin.ext_iff, Fin.val_zero, Fin.val_one, val_two_fin_four, val_three_fin_four]
  ring

lemma le_det4_add_smul_one {A : Mat 4 4} (hA : A.PosSemidef) {c : ℝ} (hc : 0 ≤ c) :
    c ^ 4 ≤ det4 (A + c • 1) := by
  rw [det4_add_smul_one]
  have hm3 : 0 ≤ det3 (minor4 A 0 0) + det3 (minor4 A 1 1)
      + det3 (minor4 A 2 2) + det3 (minor4 A 3 3) := by
    have h0 := psd_minor3 hA 0
    have h1 := psd_minor3 hA 1
    have h2 := psd_minor3 hA 2
    have h3 := psd_minor3 hA 3
    linarith
  have hm2 : 0 ≤ (A 0 0 * A 1 1 - A 0 1 * A 1 0) + (A 0 0 * A 2 2 - A 0 2 * A 2 0)
      + (A 0 0 * A 3 3 - A 0 3 * A 3 0) + (A 1 1 * A 2 2 - A 1 2 * A 2 1)
      + (A 1 1 * A 3 3 - A 1 3 * A 3 1) + (A 2 2 * A 3 3 - A 2 3 * A 3 2) := by
    have h01 := psd_minor2 hA 0 1
    have h02 := psd_minor2 hA 0 2
    have h03 := psd_minor2 hA 0 3
    have h12 := psd_minor2 hA 1 2
    have h13 := psd_minor2 hA 1 3
    have h23 := psd_minor2 hA 2 3
    linarith
  have hm1 : 0 ≤ A 0 0 + A 1 1 + A 2 2 + A 3 3 := by
    have h0 := psd_diag hA 0
    have h1 := psd_diag hA 1
    have h2 := psd_diag hA 2
    have h3 := psd_diag hA 3
    linarith
  have hm4 : 0 ≤ det4 A := by
    rw [det4_eq]
    exact psd_det_nonneg hA
  have t1 : 0 ≤ c * _ := mul_nonneg hc hm3
  have t2 : 0 ≤ c ^ 2 * _ := mul_nonneg (pow_nonneg hc 2) hm2
  have t3 : 0 ≤ c ^ 3 * _ := mul_nonneg (pow_nonneg hc 3) hm1
  linarith

/-- On a positive semidefinite covariance the innovation covariance has
determinant at least `0.1^4 = 1e-4`, so the identity fallback never fires. -/
lemma Smat_branch {k : KF} (h : k.P.PosSemidef) : ¬ |det4 (Smat k)| < 1e-10 := by
  have hb := le_det4_add_smul_one (HPHt_psd h) (by norm_num : (0 : ℝ) ≤ 0.1)
  rw [← Smat_eq] at hb
  intro hlt
  rw [abs_lt] at hlt
  have h2 := hlt.2
  norm_num at hb h2
  linarith

lemma Kmat_mul_Smat {k : KF} (h : ¬ |det4 (Smat k)| < 1e-10) :
    Kmat k * Smat k = k.P * Hmatᵀ := by
  rw [Kmat, Matrix.mul_assoc, inv4_mul _ h, Matrix.mul_one]

/-- Joseph-form identity: with the exact gain, `(I - K·H)·P` equals the
manifestly positive semidefinite `(I - K·H)·P·(I - K·H)ᵀ + K·R·Kᵀ`. -/
lemma update_P_joseph {k : KF} (h : ¬ |det4 (Smat k)| < 1e-10) :
    (1 - Kmat k * Hmat) * k.P =
      (1 - Kmat k * Hmat) * k.P * (1 - Kmat k * Hmat)ᵀ +
      Kmat k * ((0.1 : ℝ) • (1 : Mat 4 4)) * (Kmat k)ᵀ := by
  have key : k.P * (Hmatᵀ * (Kmat k)ᵀ) =
      Kmat k * (Hmat * (k.P * (Hmatᵀ * (Kmat k)ᵀ))) +
      (0.1 : ℝ) • (Kmat k * (Kmat k)ᵀ) := by
    have h0 : Kmat k * Smat k * (Kmat k)ᵀ = k.P * Hmatᵀ * (Kmat k)ᵀ := by
      rw [Kmat_mul_Smat h]
    rw [Smat_eq] at h0
    simp only [Matrix.add_mul, Matrix.mul_add, Matrix.smul_mul, Matrix.mul_smul,
      Matrix.one_mul, Matrix.mul_one, Matrix.mul_assoc] at h0
    exact h0.symm
  have key3 : k.P * (Hmatᵀ * (Kmat k)ᵀ) -
      Kmat k * (Hmat * (k.P * (Hmatᵀ * (Kmat k)ᵀ))) =
      (0.1 : ℝ) • (Kmat k * (Kmat k)ᵀ) := by
    nth_rewrite 1 [key]
    abel
  have ht : (1 - Kmat k * Hmat)ᵀ = 1 - Hmatᵀ * (Kmat k)ᵀ := by
    rw [Matrix.transpose_sub, Matrix.transpose_one, Matrix.transpose_mul]
  have e1 : (1 - Kmat k * Hmat) * k.P * (1 - Kmat k * Hmat)ᵀ =
      (1 - Kmat k * Hmat) * k.P -
      (1 - Kmat k * Hmat) * (k.P * (Hmatᵀ * (Kmat k)ᵀ)) := by
    rw [ht, Matrix.mul_sub, Matrix.mul_one, Matrix.mul_assoc]
  have e2 : (1 - Kmat k * Hmat) * (k.P * (Hmatᵀ * (Kmat k)ᵀ)) =
      k.P * (Hmatᵀ * (Kmat k)ᵀ) -
      Kmat k * (Hmat * (k.P * (Hmatᵀ * (Kmat k)ᵀ))) := by
    rw [Matrix.sub_mul, Matrix.one_mul, Matrix.mul_assoc]
  have e3 : Kmat k * ((0.1 : ℝ) • (1 : Mat 4 4)) * (Kmat k)ᵀ =
      (0.1 : ℝ) • (Kmat k * (Kmat k)ᵀ) := by
    rw [Matrix.mul_smul, Matrix.mul_one, Matrix.smul_mul]
  rw [e1, e2, e3, key3]
  abel

lemma update_psd {k : KF} (h : k.P.PosSemidef) (zx zy zvx zvy : ℝ) :
    (update k zx zy zvx zvy).P.PosSemidef := by
  show ((1 - Kmat k * Hmat) * k.P).PosSemidef
  rw [update_P_joseph (Smat_branch h)]
  refine Matrix.PosSemidef.add ?_ ?_
  · have h2 := h.mul_mul_conjTranspose_same (1 - Kmat k * Hmat)
    rwa [conjT_eq] at h2
  · have h0 : ((0.1 : ℝ) • (1 : Mat 4 4)).PosSemidef :=
      psd_smul Matrix.PosSemidef.one (by norm_num)
    have h2 := h0.mul_mul_conjTranspose_same (Kmat k)
    rwa [conjT_eq] at h2

lemma step_psd {k : KF} (h : k.P.PosSemidef) (op : Op) : (step k op).P.PosSemidef := by
  cases op with
  | predict => exact predict_psd h
  | update zx zy zvx zvy => exact update_psd h zx zy zvx zvy

lemma run_psd {k : KF} (h : k.P.PosSemidef) (ops : List Op) : (run k ops).P.PosSemidef := by
  induction ops generalizing k with
  | nil => exact h
  | cons op rest ih => exact ih (step_psd h op)

/-! ### Symmetry of the covariance -/

lemma Qmat_isSymm : Qmat.IsSymm := by
  rw [Qmat]
  exact Matrix.isSymm_diagonal _

lemma predict_isSymm {k : KF} (h : k.P.IsSymm) : (predict k).P.IsSymm := by
  show (Fmat k * k.P * (Fmat k)ᵀ + Qmat).IsSymm
  rw [Matrix.IsSymm, Matrix.transpose_add, Matrix.transpose_mul, Matrix.transpose_mul,
    Matrix.transpose_transpose, h.eq, Qmat_isSymm.eq]
  rw [Matrix.mul_assoc]

lemma Smat_isSymm {k : KF} (h : k.P.IsSymm) : (Smat k).IsSymm := by
  rw [Matrix.IsSymm, Smat_eq, Matrix.transpose_add, Matrix.transpose_smul,
    Matrix.transpose_one, Matrix.transpose_mul, Matrix.transpose_mul,
    Matrix.transpose_transpose, h.eq, Matrix.mul_assoc]

lemma inv4_isSymm {A : Mat 4 4} (h : A.IsSymm) : (inv4 A).IsSymm := by
  rw [inv4]
  split
  · exact Matrix.isSymm_one
  · have hadj : (A.adjugate)ᵀ = A.adjugate := by
      rw [Matrix.adjugate_transpose, h.eq]
    refine Matrix.IsSymm.ext fun i j => ?_
    simp only [Matrix.of_apply, adj4_eq]
    exact congrArg (· / det4 A) (congrFun (congrFun hadj i) j)

lemma update_isSymm {k : KF} (h : k.P.IsSymm) (zx zy zvx zvy : ℝ) :
    (update k zx zy zvx zvy).P.IsSymm := by
  show ((1 - Kmat k * Hmat) * k.P).IsSymm
  have e : (1 - Kmat k * Hmat) * k.P =
      k.P - k.P * (Hmatᵀ * (inv4 (Smat k) * (Hmat * k.P))) := by
    rw [Kmat]
    simp only [Matrix.sub_mul, Matrix.one_mul, Matrix.mul_assoc]
  rw [Matrix.IsSymm, e, Matrix.transpose_sub, h.eq]
  congr 1
  simp only [Matrix.transpose_mul, Matrix.transpose_transpose, h.eq,
    (inv4_isSymm (Smat_isSymm h)).eq, Matrix.mul_assoc]

/-! ### Claims about the estimator -/

/-- C1: after every `update` call, for every prior state, observation and
covariance contents (including the identity-fallback branch of the 4x4
inverse), the believed constants satisfy `g ∈ [0,20]`, `m ∈ [0.1,10]` and
`μ ∈ [0,2]`: the additive parameter update is hard-clamped. -/
theorem claim_C1_update_clamps_params (k : KF) (zx zy zvx zvy : ℝ) :
    0 ≤ (update k zx zy zvx zvy).g ∧ (update k zx zy zvx zvy).g ≤ 20 ∧
    0.1 ≤ (update k zx zy zvx zvy).m ∧ (update k zx zy zvx zvy).m ≤ 10 ∧
    0 ≤ (update k zx zy zvx zvy).μ ∧ (update k zx zy zvx zvy).μ ≤ 2 :=
  ⟨le_max_left _ _, max_le (by norm_num) (min_le_left _ _),
   le_max_left _ _, max_le (by norm_num) (min_le_left _ _),
   le_max_left _ _, max_le (by norm_num) (min_le_left _ _)⟩

/-- C2: starting from the constructor's covariance (a nonnegative
`initialCovariance` on the diagonal, with the parameter entries overridden to
5, 2, 1), every finite sequence of `predict` and `update` calls leaves every
diagonal entry of `P` nonnegative: the covariance stays positive
semidefinite throughout. -/
theorem claim_C2_diag_nonneg (px py vx vy g m μ c dt : ℝ) (hc : 0 ≤ c)
    (ops : List Op) (i : Fin 7) :
    0 ≤ (run (mkFilter px py vx vy g m μ c dt) ops).P i i :=
  psd_diag (run_psd (initP_psd hc) ops) i

theorem claim_C2_diag_nonneg_witness :
    (0 : ℝ) ≤ 10 ∧
    0 ≤ (run (mkFilter 0 0 0 0 9.8 1 0.1 10 0.016)
          [Op.predict, Op.update 0 0 0 0]).P 3 3 :=
  ⟨by norm_num, claim_C2_diag_nonneg 0 0 0 0 9.8 1 0.1 10 0.016 (by norm_num) _ 3⟩


/-- C3 (counterexample): for the filter built by the constructor at the origin
state with `g = 9.8`, `m = 1`, `μ = 0.1`, `initialCovariance = 10` and
`dt = 0.016`, the covariance trace strictly DECREASES from the first `predict`
to the second (the friction factor `(1 - μ·dt)²` shrinks the velocity
variances by more than the process noise adds), refuting the claim that the
trace is non-decreasing across consecutive predicts. -/
theorem claim_C3_counterexample :
    (run (mkFilter 0 0 0 0 9.8 1 0.1 10 0.016) [Op.predict, Op.predict]).P.trace <
    (run (mkFilter 0 0 0 0 9.8 1 0.1 10 0.016) [Op.predict]).P.trace := by
  simp only [run, List.foldl, step, predict, mkFilter, Matrix.trace, Matrix.diag,
    Fin.sum_univ_seven, Matrix.add_apply, Matrix.mul_apply, Matrix.transpose_apply,
    Fmat, Qmat, initP, Matrix.of_apply, Matrix.diagonal_apply,
    vec7_zero, vec7_one, vec7_two, vec7_three, vec7_four, vec7_five, vec7_six,
    Fin.ext_iff, Fin.val_zero, Fin.val_one, fin7_val_two, fin7_val_three,
    fin7_val_four, fin7_val_five, fin7_val_six]
  norm_num

/-- C3 (amended): each `predict` leaves the parameter variances monotonically
increasing — the diagonal entries for `g`, `m`, `μ` each grow by exactly the
process noise `1e-4` — but the full covariance trace is NOT non-decreasing:
`F·P·Fᵀ` can shrink the kinematic variances by more than `tr Q` adds. -/
theorem claim_C3_param_diag_increases (k : KF) :
    (predict k).P 4 4 = k.P 4 4 + 0.0001 ∧
    (predict k).P 5 5 = k.P 5 5 + 0.0001 ∧
    (predict k).P 6 6 = k.P 6 6 + 0.0001 := by
  refine ⟨?_, ?_, ?_⟩ <;>
  · show (Fmat k * k.P * (Fmat k)ᵀ + Qmat) _ _ = _
    simp only [Matrix.add_apply, Matrix.mul_apply, Matrix.transpose_apply,
      Fin.sum_univ_seven, Fmat, Qmat, Matrix.of_apply, Matrix.diagonal_apply,
      vec7_zero, vec7_one, vec7_two, vec7_three, vec7_four, vec7_five, vec7_six,
      Fin.ext_iff, Fin.val_zero, Fin.val_one, fin7_val_two, fin7_val_three,
      fin7_val_four, fin7_val_five, fin7_val_six]
    norm_num

/-! ### Momentum conservation of particle-particle collision resolution -/

lemma resolvePair_velSum (p q : SParticle) :
    ((resolvePair p q).1.velocity.x + (resolvePair p q).2.1.velocity.x
       = p.velocity.x + q.velocity.x) ∧
    ((resolvePair p q).1.velocity.y + (resolvePair p q).2.1.velocity.y
       = p.velocity.y + q.velocity.y) ∧
    ((resolvePair p q).1.velocity.z + (resolvePair p q).2.1.velocity.z
       = p.velocity.z + q.velocity.z) := by
  simp only [resolvePair]
  split_ifs <;> refine ⟨?_, ?_, ?_⟩ <;> dsimp only <;> ring

lemma resolveAgainst_velSum (p : SParticle) (l : List SParticle) :
    ((resolveAgainst p l).1.velocity.x
       + (((resolveAgainst p l).2.1.map fun q => q.velocity.x).sum)
       = p.velocity.x + ((l.map fun q => q.velocity.x).sum)) ∧
    ((resolveAgainst p l).1.velocity.y
       + (((resolveAgainst p l).2.1.map fun q => q.velocity.y).sum)
       = p.velocity.y + ((l.map fun q => q.velocity.y).sum)) ∧
    ((resolveAgainst p l).1.velocity.z
       + (((resolveAgainst p l).2.1.map fun q => q.velocity.z).sum)
       = p.velocity.z + ((l.map fun q => q.velocity.z).sum)) := by
  induction l generalizing p with
  | nil => simp [resolveAgainst]
  | cons q rest ih =>
    obtain ⟨hx, hy, hz⟩ := resolvePair_velSum p q
    obtain ⟨ix, iy, iz⟩ := ih (resolvePair p q).1
    refine ⟨?_, ?_, ?_⟩ <;> simp only [resolveAgainst, List.map_cons, List.sum_cons] <;>
      linarith

lemma checkPC_velSum (ps : List SParticle) :
    (((checkParticleCollisions ps).1.map fun q => q.velocity.x).sum
       = ((ps.map fun q => q.velocity.x).sum)) ∧
    (((checkParticleCollisions ps).1.map fun q => q.velocity.y).sum
       = ((ps.map fun q => q.velocity.y).sum)) ∧
    (((checkParticleCollisions ps).1.map fun q => q.velocity.z).sum
       = ((ps.map fun q => q.velocity.z).sum)) := by
  induction ps using checkParticleCollisions.induct with
  | case1 => simp [checkParticleCollisions]
  | case2 p rest r1 ih =>
    obtain ⟨ax, ay, az⟩ := resolveAgainst_velSum p rest
    obtain ⟨bx, by', bz⟩ := ih
    refine ⟨?_, ?_, ?_⟩ <;>
      simp only [checkParticleCollisions, List.map_cons, List.sum_cons] <;> linarith

/-- C7 (counterexample): the getter surface is NOT uniformly alias-free.
`ParticleSystem.getParticles` returns the stored particle objects themselves:
for the concrete one-particle system, address 0 is handed out by
`getParticles`, and the caller's write through it (setting `position.x` to
42) changes the core's internal state. -/
theorem claim_C7_counterexample :
    0 ∈ getParticlesRefs demoSys ∧ heapWrite demoSys 0 demoMutant ≠ demoSys := by
  constructor
  · simp [getParticlesRefs, demoSys]
  · intro hEq
    have h := congrArg (fun s => (s.store.headD demoMutant).position.x) hEq
    simp only [heapWrite, demoSys, demoMutant, createParticle, List.set_cons_zero,
      List.headD_cons] at h
    norm_num at h

/-- C7 (amended): `getState`, `getCovariance` and `getGlobalPosterior` return
structural copies, but `ParticleSystem.getParticles` returns references into
the live particle store: every returned reference addresses the store, and
writing any different particle record through it changes the core's internal
state. -/
theorem claim_C7_getParticles_aliases_store (s : PSysState) (r : ℕ) (p : SParticle)
    (hr : r ∈ getParticlesRefs s) (hp : p ≠ s.store.getD r p) :
    r < s.store.length ∧ heapWrite s r p ≠ s := by
  have hlen : r < s.store.length := by
    simpa [getParticlesRefs] using hr
  refine ⟨hlen, fun hEq => ?_⟩
  have h1 : (heapWrite s r p).store.getD r p = p := getD_set_self _ _ _ _ hlen
  rw [hEq] at h1
  exact hp h1.symm

theorem claim_C7_getParticles_aliases_store_witness :
    (0 ∈ getParticlesRefs demoSys ∧ demoMutant ≠ demoSys.store.getD 0 demoMutant) ∧
    (0 < demoSys.store.length ∧ heapWrite demoSys 0 demoMutant ≠ demoSys) := by
  have h1 : 0 ∈ getParticlesRefs demoSys := by simp [getParticlesRefs, demoSys]
  have h2 : demoMutant ≠ demoSys.store.getD 0 demoMutant := by
    intro hEq
    have h := congrArg (fun q => q.position.x) hEq
    simp only [demoMutant, demoSys, createParticle, List.getD_cons_zero] at h
    norm_num at h
  exact ⟨⟨h1, h2⟩, claim_C7_getParticles_aliases_store demoSys 0 demoMutant h1 h2⟩

lemma sqrt_nine_hundredths : Real.sqrt (9 / 100 : ℝ) = 3 / 10 := by
  rw [show (9 / 100 : ℝ) = (3 / 10) ^ 2 by norm_num]
  exact Real.sqrt_sq (by norm_num)

lemma sqrt_nine : Real.sqrt (9 : ℝ) = 3 := by
  rw [show (9 : ℝ) = 3 ^ 2 by norm_num]
  exact Real.sqrt_sq (by norm_num)

lemma sqrt_hundred : Real.sqrt (100 : ℝ) = 10 := by
  rw [show (100 : ℝ) = 10 ^ 2 by norm_num]
  exact Real.sqrt_sq (by norm_num)

set_option maxHeartbeats 1000000 in
lemma c8_resolvePair : resolvePair c8p1 c8p2 = (c8q1, c8q2, some c8ev) := by
  rw [resolvePair]
  norm_num [c8p1, c8p2, c8q1, c8q2, c8ev, createParticle, sqrt_nine_hundredths,
    sqrt_nine, sqrt_hundred]

lemma c8_collision_phase :
    checkParticleCollisions [c8p1, c8p2] = ([c8q1, c8q2], [c8ev]) := by
  simp [checkParticleCollisions, resolveAgainst, c8_resolvePair]

/-! ### The two-particle collision scenario with symbolic spawn draws -/

/-- The constructor's clamp on the randomized initial gravity belief. -/
def gclamp (r : ℝ) : ℝ := max 0 (min 20 (9.8 + (r - 0.5) * 10))

/-- The constructor's clamp on the randomized initial mass belief. -/
def mclamp (r : ℝ) : ℝ := max 0.1 (min 10 (1.0 + (r - 0.5) * 2))

/-- The constructor's clamp on the randomized initial friction belief. -/
def muclamp (r : ℝ) : ℝ := max 0 (min 2 (0.1 + (r - 0.5) * 0.5))

lemma gclamp_mem (r : ℝ) (h0 : 0 ≤ r) (h1 : r ≤ 1) :
    24/5 ≤ gclamp r ∧ gclamp r ≤ 74/5 := by
  rw [gclamp, min_eq_right (by norm_num; linarith), max_eq_right (by norm_num; linarith)]
  constructor <;> [linarith; linarith]

lemma muclamp_mem (r : ℝ) (h1 : r ≤ 1) :
    0 ≤ muclamp r ∧ muclamp r ≤ 7/20 := by
  rw [muclamp, min_eq_right (by norm_num; linarith)]
  exact ⟨le_max_left _ _, max_le (by norm_num) (by norm_num; linarith)⟩

/-- Scenario particle 1 with the three spawn draws symbolic. -/
def c8p1r (r1 r2 r3 : ℝ) : SParticle :=
  createParticle "p1" ⟨-0.15, 0, 0⟩ ⟨1, 0, 0⟩ r1 r2 r3

/-- Scenario particle 2 with the three spawn draws symbolic. -/
def c8p2r (s1 s2 s3 : ℝ) : SParticle :=
  createParticle "p2" ⟨0.15, 0, 0⟩ ⟨-1, 0, 0⟩ s1 s2 s3

/-- Particle 1 after the collision-resolution phase (symbolic draws): the
half-impulse `1.8` applied against its motion, position separated to contact
distance. -/
def c8q1r (r1 r2 r3 : ℝ) : SParticle :=
  { c8p1r r1 r2 r3 with velocity := ⟨-0.8, 0, 0⟩, position := ⟨-0.4, 0, 0⟩ }

/-- Particle 2 after the collision-resolution phase (symbolic draws). -/
def c8q2r (s1 s2 s3 : ℝ) : SParticle :=
  { c8p2r s1 s2 s3 with velocity := ⟨0.8, 0, 0⟩, position := ⟨0.4, 0, 0⟩ }

set_option maxHeartbeats 1000000 in
lemma c8_resolvePair_r (r1 r2 r3 s1 s2 s3 : ℝ) :
    resolvePair (c8p1r r1 r2 r3) (c8p2r s1 s2 s3) =
      (c8q1r r1 r2 r3, c8q2r s1 s2 s3, some c8ev) := by
  rw [resolvePair]
  norm_num [c8p1r, c8p2r, c8q1r, c8q2r, c8ev, createParticle, sqrt_nine_hundredths,
    sqrt_nine, sqrt_hundred]

lemma c8_collision_phase_r (r1 r2 r3 s1 s2 s3 : ℝ) :
    checkParticleCollisions [c8p1r r1 r2 r3, c8p2r s1 s2 s3] =
      ([c8q1r r1 r2 r3, c8q2r s1 s2 s3], [c8ev]) := by
  simp [checkParticleCollisions, resolveAgainst, c8_resolvePair_r]

/-- The scenario filter at spawn, parametric in the believed constants. -/
def c8f0r (px vx g m μ : ℝ) : KF := mkFilter px 0 vx 0 g m μ 10 0.016

/-- The scenario filter after the tick's Kalman predict. -/
def c8f1r (px vx g m μ : ℝ) : KF := predict (c8f0r px vx g m μ)

lemma c8q1r_filter (r1 r2 r3 : ℝ) :
    (c8q1r r1 r2 r3).filter = c8f0r (-0.15) 1 (gclamp r1) (mclamp r2) (muclamp r3) := rfl

lemma c8q2r_filter (s1 s2 s3 : ℝ) :
    (c8q2r s1 s2 s3).filter = c8f0r 0.15 (-1) (gclamp s1) (mclamp s2) (muclamp s3) := rfl

lemma c8f1r_fields (px vx g m μ : ℝ) :
    (c8f1r px vx g m μ).px = px + vx * (2/125) ∧
    (c8f1r px vx g m μ).py = -((2/15625) * g) ∧
    (c8f1r px vx g m μ).vx = vx - μ * vx * (2/125) ∧
    (c8f1r px vx g m μ).vy = -((2/125) * g) := by
  refine ⟨?_, ?_, ?_, ?_⟩ <;>
    · show _ = _
      norm_num [c8f1r, c8f0r, predict, mkFilter]
      try ring

/-- The predicted covariance of scenario particle 1's filter, symbolic in the
believed friction `μ` (the believed `g` and `m` do not enter `F`). -/
def c8P1ra (μ : ℝ) : Mat 7 7 :=
  !![125157/12500, 0, 4/25 - 8/3125 * μ, 0, 0, 0, 0;
     0, 1955578141/195312500, 0, 62504/390625 - 8/3125 * μ, -2/3125, 0, 0;
     4/25 - 8/3125 * μ, 0, 625641/62500 - 8/25 * μ + 8/3125 * μ^2, 0, 0, 0, -2/125;
     0, 62504/390625 - 8/3125 * μ, 0, 125141/12500 - 8/25 * μ + 8/3125 * μ^2, -2/25, 0, 0;
     0, -2/3125, 0, -2/25, 50001/10000, 0, 0;
     0, 0, 0, 0, 0, 20001/10000, 0;
     0, 0, -2/125, 0, 0, 0, 10001/10000]

/-- The predicted covariance of scenario particle 2's filter: it differs from
particle 1's only in the sign of the `vx`/`μ` cross terms. -/
def c8P1rb (μ : ℝ) : Mat 7 7 :=
  !![125157/12500, 0, 4/25 - 8/3125 * μ, 0, 0, 0, 0;
     0, 1955578141/195312500, 0, 62504/390625 - 8/3125 * μ, -2/3125, 0, 0;
     4/25 - 8/3125 * μ, 0, 625641/62500 - 8/25 * μ + 8/3125 * μ^2, 0, 0, 0, 2/125;
     0, 62504/390625 - 8/3125 * μ, 0, 125141/12500 - 8/25 * μ + 8/3125 * μ^2, -2/25, 0, 0;
     0, -2/3125, 0, -2/25, 50001/10000, 0, 0;
     0, 0, 0, 0, 0, 20001/10000, 0;
     0, 0, 2/125, 0, 0, 0, 10001/10000]

/-- The innovation covariance `S = H·P₁·Hᵀ + 0.1·I` of either scenario
particle, symbolic in the believed friction `μ`. -/
def c8S (μ : ℝ) : Mat 4 4 :=
  !![126407/12500, 0, 4/25 - 8/3125 * μ, 0;
     0, 1975109391/195312500, 0, 62504/390625 - 8/3125 * μ;
     4/25 - 8/3125 * μ, 0, 631891/62500 - 8/25 * μ + 8/3125 * μ^2, 0;
     0, 62504/390625 - 8/3125 * μ, 0, 126391/12500 - 8/25 * μ + 8/3125 * μ^2]

set_option maxHeartbeats 4000000 in
lemma c8_P1ra_eq (px g m μ : ℝ) : (c8f1r px 1 g m μ).P = c8P1ra μ := by
  show Fmat (c8f0r px 1 g m μ) * (initP 10) * (Fmat (c8f0r px 1 g m μ))ᵀ + Qmat = c8P1ra μ
  ext i j
  fin_cases i <;> fin_cases j <;>
    simp only [vec7_mk_zero, vec7_mk_one, vec7_mk_two, vec7_mk_three, vec7_mk_four,
      vec7_mk_five, vec7_mk_six, vec4_mk_zero, vec4_mk_one, vec4_mk_two,
      vec4_mk_three, fin7_mk_val, fin4_mk_val, Fmat, c8f0r, mkFilter, initP, Qmat,
      c8P1ra, Matrix.mul_apply,
      Matrix.add_apply, Matrix.transpose_apply, Matrix.diagonal_apply, Matrix.of_apply,
      Fin.sum_univ_seven, vec7_zero, vec7_one, vec7_two, vec7_three, vec7_four,
      vec7_five, vec7_six, Fin.ext_iff, Fin.val_zero, Fin.val_one, fin7_val_two,
      fin7_val_three, fin7_val_four, fin7_val_five, fin7_val_six] <;>
    norm_num <;> ring

set_option maxHeartbeats 4000000 in
lemma c8_P1rb_eq (px g m μ : ℝ) : (c8f1r px (-1) g m μ).P = c8P1rb μ := by
  show Fmat (c8f0r px (-1) g m μ) * (initP 10) * (Fmat (c8f0r px (-1) g m μ))ᵀ + Qmat = c8P1rb μ
  ext i j
  fin_cases i <;> fin_cases j <;>
    simp only [vec7_mk_zero, vec7_mk_one, vec7_mk_two, vec7_mk_three, vec7_mk_four,
      vec7_mk_five, vec7_mk_six, vec4_mk_zero, vec4_mk_one, vec4_mk_two,
      vec4_mk_three, fin7_mk_val, fin4_mk_val, Fmat, c8f0r, mkFilter, initP, Qmat,
      c8P1rb, Matrix.mul_apply,
      Matrix.add_apply, Matrix.transpose_apply, Matrix.diagonal_apply, Matrix.of_apply,
      Fin.sum_univ_seven, vec7_zero, vec7_one, vec7_two, vec7_three, vec7_four,
      vec7_five, vec7_six, Fin.ext_iff, Fin.val_zero, Fin.val_one, fin7_val_two,
      fin7_val_three, fin7_val_four, fin7_val_five, fin7_val_six] <;>
    norm_num <;> ring

set_option maxHeartbeats 2000000 in
lemma c8_Smat_ra (px g m μ : ℝ) : Smat (c8f1r px 1 g m μ) = c8S μ := by
  show Hmat * (c8f1r px 1 g m μ).P * Hmatᵀ + (0.1 : ℝ) • 1 = c8S μ
  rw [c8_P1ra_eq]
  ext i j
  fin_cases i <;> fin_cases j <;>
    simp only [vec7_mk_zero, vec7_mk_one, vec7_mk_two, vec7_mk_three, vec7_mk_four,
      vec7_mk_five, vec7_mk_six, vec4_mk_zero, vec4_mk_one, vec4_mk_two,
      vec4_mk_three, fin7_mk_val, fin4_mk_val, Hmat, c8P1ra, c8S, Matrix.mul_apply,
      Matrix.add_apply,
      Matrix.transpose_apply, Matrix.smul_apply, Matrix.one_apply, Matrix.of_apply,
      Fin.sum_univ_seven, Fin.sum_univ_four, vec7_zero, vec7_one, vec7_two,
      vec7_three, vec7_four, vec7_five, vec7_six, vec4_zero, vec4_one, vec4_two,
      vec4_three, Fin.ext_iff, Fin.val_zero, Fin.val_one, fin7_val_two,
      fin7_val_three, fin7_val_four, fin7_val_five, fin7_val_six,
      val_two_fin_four, val_three_fin_four] <;>
    norm_num <;> ring

set_option maxHeartbeats 2000000 in
lemma c8_Smat_rb (px g m μ : ℝ) : Smat (c8f1r px (-1) g m μ) = c8S μ := by
  show Hmat * (c8f1r px (-1) g m μ).P * Hmatᵀ + (0.1 : ℝ) • 1 = c8S μ
  rw [c8_P1rb_eq]
  ext i j
  fin_cases i <;> fin_cases j <;>
    simp only [vec7_mk_zero, vec7_mk_one, vec7_mk_two, vec7_mk_three, vec7_mk_four,
      vec7_mk_five, vec7_mk_six, vec4_mk_zero, vec4_mk_one, vec4_mk_two,
      vec4_mk_three, fin7_mk_val, fin4_mk_val, Hmat, c8P1rb, c8S, Matrix.mul_apply,
      Matrix.add_apply,
      Matrix.transpose_apply, Matrix.smul_apply, Matrix.one_apply, Matrix.of_apply,
      Fin.sum_univ_seven, Fin.sum_univ_four, vec7_zero, vec7_one, vec7_two,
      vec7_three, vec7_four, vec7_five, vec7_six, vec4_zero, vec4_one, vec4_two,
      vec4_three, Fin.ext_iff, Fin.val_zero, Fin.val_one, fin7_val_two,
      fin7_val_three, fin7_val_four, fin7_val_five, fin7_val_six,
      val_two_fin_four, val_three_fin_four] <;>
    norm_num <;> ring

/-- The determinant factor of `c8S` coming from the `x`-components. -/
def c8D (μ : ℝ) : ℝ := 79855445637/781250000 - 2022/625 * μ + 2022/78125 * μ^2

/-- The determinant factor of `c8S` coming from the `y`-components. -/
def c8Dp (μ : ℝ) : ℝ :=
  1996588344301/19531250000 - 3949218718/1220703125 * μ + 3949218782/152587890625 * μ^2

lemma c8D_ge_one (μ : ℝ) : 1 ≤ c8D μ := by
  rw [c8D]; nlinarith [sq_nonneg (μ - 125/2)]

lemma c8Dp_ge_one (μ : ℝ) : 1 ≤ c8Dp μ := by
  rw [c8Dp]; nlinarith [sq_nonneg (μ - 125/2)]

lemma c8_det4_S (μ : ℝ) : det4 (c8S μ) = c8D μ * c8Dp μ := by
  norm_num [det4, c8S, c8D, c8Dp, Matrix.of_apply, vec4_zero, vec4_one, vec4_two,
    vec4_three]
  ring

lemma c8_S_nondeg (μ : ℝ) : ¬ |det4 (c8S μ)| < 1e-10 := by
  intro h
  have h1 := c8D_ge_one μ
  have h2 := c8Dp_ge_one μ
  rw [c8_det4_S, abs_of_nonneg (by nlinarith)] at h
  nlinarith

/-- When the code's 4×4 inverse takes its exact branch, applying it to a
vector recovers the solution of the corresponding linear system. -/
lemma inv4_mulVec {A : Mat 4 4} (h : ¬ |det4 A| < 1e-10) {w y : Fin 4 → ℝ}
    (hw : A.mulVec w = y) : (inv4 A).mulVec y = w := by
  rw [← hw, Matrix.mulVec_mulVec, inv4_mul A h, Matrix.one_mulVec]

/-- First component of `S⁻¹ y` (Cramer's rule on the decoupled `x`-block). -/
def c8w0 (μ y0 y2 : ℝ) : ℝ :=
  ((631891/62500 - 8/25 * μ + 8/3125 * μ^2) * y0 - (4/25 - 8/3125 * μ) * y2) / c8D μ

/-- Second component of `S⁻¹ y` (decoupled `y`-block). -/
def c8w1 (μ y1 y3 : ℝ) : ℝ :=
  ((126391/12500 - 8/25 * μ + 8/3125 * μ^2) * y1 - (62504/390625 - 8/3125 * μ) * y3) / c8Dp μ

/-- Third component of `S⁻¹ y`. -/
def c8w2 (μ y0 y2 : ℝ) : ℝ :=
  ((126407/12500) * y2 - (4/25 - 8/3125 * μ) * y0) / c8D μ

/-- Fourth component of `S⁻¹ y`. -/
def c8w3 (μ y1 y3 : ℝ) : ℝ :=
  ((1975109391/195312500) * y3 - (62504/390625 - 8/3125 * μ) * y1) / c8Dp μ

set_option maxHeartbeats 1000000 in
lemma c8_S_solve (μ y0 y1 y2 y3 : ℝ) :
    (c8S μ).mulVec ![c8w0 μ y0 y2, c8w1 μ y1 y3, c8w2 μ y0 y2, c8w3 μ y1 y3] =
      ![y0, y1, y2, y3] := by
  have hD0 : c8D μ ≠ 0 := ne_of_gt (lt_of_lt_of_le one_pos (c8D_ge_one μ))
  have hDp0 : c8Dp μ ≠ 0 := ne_of_gt (lt_of_lt_of_le one_pos (c8Dp_ge_one μ))
  funext i
  fin_cases i <;>
    · simp only [Matrix.mulVec, Matrix.dotProduct, Fin.sum_univ_four, c8S,
        Matrix.of_apply, vec4_zero, vec4_one, vec4_two, vec4_three, vec4_mk_zero,
        vec4_mk_one, vec4_mk_two, vec4_mk_three, c8w0, c8w1, c8w2, c8w3]
      field_simp
      simp only [c8D, c8Dp]
      ring

set_option maxHeartbeats 2000000 in
/-- The kinematic rows of the Kalman gain applied to an innovation, for
scenario particle 1's filter, symbolic in the believed friction. -/
lemma c8_Ky_ra (px g m μ y0 y1 y2 y3 : ℝ) :
    ((Kmat (c8f1r px 1 g m μ)).mulVec ![y0, y1, y2, y3]) 0 =
      125157/12500 * c8w0 μ y0 y2 + (4/25 - 8/3125 * μ) * c8w2 μ y0 y2 ∧
    ((Kmat (c8f1r px 1 g m μ)).mulVec ![y0, y1, y2, y3]) 1 =
      1955578141/195312500 * c8w1 μ y1 y3 + (62504/390625 - 8/3125 * μ) * c8w3 μ y1 y3 ∧
    ((Kmat (c8f1r px 1 g m μ)).mulVec ![y0, y1, y2, y3]) 2 =
      (4/25 - 8/3125 * μ) * c8w0 μ y0 y2
        + (625641/62500 - 8/25 * μ + 8/3125 * μ^2) * c8w2 μ y0 y2 := by
  have hW : (inv4 (c8S μ)).mulVec ![y0, y1, y2, y3] =
      ![c8w0 μ y0 y2, c8w1 μ y1 y3, c8w2 μ y0 y2, c8w3 μ y1 y3] :=
    inv4_mulVec (c8_S_nondeg μ) (c8_S_solve μ y0 y1 y2 y3)
  have hK : Kmat (c8f1r px 1 g m μ) = c8P1ra μ * Hmatᵀ * inv4 (c8S μ) := by
    rw [Kmat, c8_Smat_ra, c8_P1ra_eq]
  rw [hK, ← Matrix.mulVec_mulVec, hW]
  refine ⟨?_, ?_, ?_⟩ <;>
    simp only [Matrix.mulVec, Matrix.dotProduct, Matrix.mul_apply,
      Matrix.transpose_apply, Matrix.of_apply, Fin.sum_univ_four, Fin.sum_univ_seven,
      c8P1ra, Hmat, vec7_zero, vec7_one, vec7_two, vec7_three, vec7_four, vec7_five,
      vec7_six, vec4_zero, vec4_one, vec4_two, vec4_three] <;>
    ring

set_option maxHeartbeats 2000000 in
/-- The same gain rows for scenario particle 2's filter (they coincide). -/
lemma c8_Ky_rb (px g m μ y0 y1 y2 y3 : ℝ) :
    ((Kmat (c8f1r px (-1) g m μ)).mulVec ![y0, y1, y2, y3]) 0 =
      125157/12500 * c8w0 μ y0 y2 + (4/25 - 8/3125 * μ) * c8w2 μ y0 y2 ∧
    ((Kmat (c8f1r px (-1) g m μ)).mulVec ![y0, y1, y2, y3]) 1 =
      1955578141/195312500 * c8w1 μ y1 y3 + (62504/390625 - 8/3125 * μ) * c8w3 μ y1 y3 ∧
    ((Kmat (c8f1r px (-1) g m μ)).mulVec ![y0, y1, y2, y3]) 2 =
      (4/25 - 8/3125 * μ) * c8w0 μ y0 y2
        + (625641/62500 - 8/25 * μ + 8/3125 * μ^2) * c8w2 μ y0 y2 := by
  have hW : (inv4 (c8S μ)).mulVec ![y0, y1, y2, y3] =
      ![c8w0 μ y0 y2, c8w1 μ y1 y3, c8w2 μ y0 y2, c8w3 μ y1 y3] :=
    inv4_mulVec (c8_S_nondeg μ) (c8_S_solve μ y0 y1 y2 y3)
  have hK : Kmat (c8f1r px (-1) g m μ) = c8P1rb μ * Hmatᵀ * inv4 (c8S μ) := by
    rw [Kmat, c8_Smat_rb, c8_P1rb_eq]
  rw [hK, ← Matrix.mulVec_mulVec, hW]
  refine ⟨?_, ?_, ?_⟩ <;>
    simp only [Matrix.mulVec, Matrix.dotProduct, Matrix.mul_apply,
      Matrix.transpose_apply, Matrix.of_apply, Fin.sum_univ_four, Fin.sum_univ_seven,
      c8P1rb, Hmat, vec7_zero, vec7_one, vec7_two, vec7_three, vec7_four, vec7_five,
      vec7_six, vec4_zero, vec4_one, vec4_two, vec4_three] <;>
    ring

set_option maxHeartbeats 1000000 in
/-- The kinematic state of scenario particle 1's filter after the Kalman
correction, as an affine function of the observation, symbolic in the
believed constants. -/
lemma c8_upd_ra (px g m μ zx zy zvx zvy : ℝ) :
    (update (c8f1r px 1 g m μ) zx zy zvx zvy).px =
      (px + 2/125) +
        (125157/12500 * c8w0 μ (zx - (px + 2/125)) (zvx - (1 - μ * (2/125)))
          + (4/25 - 8/3125 * μ) * c8w2 μ (zx - (px + 2/125)) (zvx - (1 - μ * (2/125)))) ∧
    (update (c8f1r px 1 g m μ) zx zy zvx zvy).py =
      -((2/15625) * g) +
        (1955578141/195312500 * c8w1 μ (zy + (2/15625) * g) (zvy + (2/125) * g)
          + (62504/390625 - 8/3125 * μ) * c8w3 μ (zy + (2/15625) * g) (zvy + (2/125) * g)) ∧
    (update (c8f1r px 1 g m μ) zx zy zvx zvy).vx =
      (1 - μ * (2/125)) +
        ((4/25 - 8/3125 * μ) * c8w0 μ (zx - (px + 2/125)) (zvx - (1 - μ * (2/125)))
          + (625641/62500 - 8/25 * μ + 8/3125 * μ^2) *
              c8w2 μ (zx - (px + 2/125)) (zvx - (1 - μ * (2/125)))) := by
  obtain ⟨hpx, hpy, hvx, hvy⟩ := c8f1r_fields px 1 g m μ
  have hv : (![zx - (c8f1r px 1 g m μ).px, zy - (c8f1r px 1 g m μ).py,
      zvx - (c8f1r px 1 g m μ).vx, zvy - (c8f1r px 1 g m μ).vy] : Fin 4 → ℝ) =
      ![zx - (px + 2/125), zy + (2/15625) * g,
        zvx - (1 - μ * (2/125)), zvy + (2/125) * g] := by
    rw [hpx, hpy, hvx, hvy]
    funext i
    fin_cases i <;>
      simp only [vec4_mk_zero, vec4_mk_one, vec4_mk_two, vec4_mk_three,
        vec4_zero, vec4_one, vec4_two, vec4_three] <;>
      ring
  obtain ⟨h0, h1, h2⟩ := c8_Ky_ra px g m μ (zx - (px + 2/125)) (zy + (2/15625) * g)
    (zvx - (1 - μ * (2/125))) (zvy + (2/125) * g)
  refine ⟨?_, ?_, ?_⟩
  · show (c8f1r px 1 g m μ).px + ((Kmat (c8f1r px 1 g m μ)).mulVec
        ![zx - (c8f1r px 1 g m μ).px, zy - (c8f1r px 1 g m μ).py,
          zvx - (c8f1r px 1 g m μ).vx, zvy - (c8f1r px 1 g m μ).vy]) 0 = _
    rw [hv, h0, hpx]
    ring
  · show (c8f1r px 1 g m μ).py + ((Kmat (c8f1r px 1 g m μ)).mulVec
        ![zx - (c8f1r px 1 g m μ).px, zy - (c8f1r px 1 g m μ).py,
          zvx - (c8f1r px 1 g m μ).vx, zvy - (c8f1r px 1 g m μ).vy]) 1 = _
    rw [hv, h1, hpy]
  · show (c8f1r px 1 g m μ).vx + ((Kmat (c8f1r px 1 g m μ)).mulVec
        ![zx - (c8f1r px 1 g m μ).px, zy - (c8f1r px 1 g m μ).py,
          zvx - (c8f1r px 1 g m μ).vx, zvy - (c8f1r px 1 g m μ).vy]) 2 = _
    rw [hv, h2, hvx]
    ring

set_option maxHeartbeats 1000000 in
/-- The same affine form for scenario particle 2's filter. -/
lemma c8_upd_rb (px g m μ zx zy zvx zvy : ℝ) :
    (update (c8f1r px (-1) g m μ) zx zy zvx zvy).px =
      (px - 2/125) +
        (125157/12500 * c8w0 μ (zx - (px - 2/125)) (zvx + (1 - μ * (2/125)))
          + (4/25 - 8/3125 * μ) * c8w2 μ (zx - (px - 2/125)) (zvx + (1 - μ * (2/125)))) ∧
    (update (c8f1r px (-1) g m μ) zx zy zvx zvy).py =
      -((2/15625) * g) +
        (1955578141/195312500 * c8w1 μ (zy + (2/15625) * g) (zvy + (2/125) * g)
          + (62504/390625 - 8/3125 * μ) * c8w3 μ (zy + (2/15625) * g) (zvy + (2/125) * g)) ∧
    (update (c8f1r px (-1) g m μ) zx zy zvx zvy).vx =
      -(1 - μ * (2/125)) +
        ((4/25 - 8/3125 * μ) * c8w0 μ (zx - (px - 2/125)) (zvx + (1 - μ * (2/125)))
          + (625641/62500 - 8/25 * μ + 8/3125 * μ^2) *
              c8w2 μ (zx - (px - 2/125)) (zvx + (1 - μ * (2/125)))) := by
  obtain ⟨hpx, hpy, hvx, hvy⟩ := c8f1r_fields px (-1) g m μ
  have hv : (![zx - (c8f1r px (-1) g m μ).px, zy - (c8f1r px (-1) g m μ).py,
      zvx - (c8f1r px (-1) g m μ).vx, zvy - (c8f1r px (-1) g m μ).vy] : Fin 4 → ℝ) =
      ![zx - (px - 2/125), zy + (2/15625) * g,
        zvx + (1 - μ * (2/125)), zvy + (2/125) * g] := by
    rw [hpx, hpy, hvx, hvy]
    funext i
    fin_cases i <;>
      simp only [vec4_mk_zero, vec4_mk_one, vec4_mk_two, vec4_mk_three,
        vec4_zero, vec4_one, vec4_two, vec4_three] <;>
      ring
  obtain ⟨h0, h1, h2⟩ := c8_Ky_rb px g m μ (zx - (px - 2/125)) (zy + (2/15625) * g)
    (zvx + (1 - μ * (2/125))) (zvy + (2/125) * g)
  refine ⟨?_, ?_, ?_⟩
  · show (c8f1r px (-1) g m μ).px + ((Kmat (c8f1r px (-1) g m μ)).mulVec
        ![zx - (c8f1r px (-1) g m μ).px, zy - (c8f1r px (-1) g m μ).py,
          zvx - (c8f1r px (-1) g m μ).vx, zvy - (c8f1r px (-1) g m μ).vy]) 0 = _
    rw [hv, h0, hpx]
    ring
  · show (c8f1r px (-1) g m μ).py + ((Kmat (c8f1r px (-1) g m μ)).mulVec
        ![zx - (c8f1r px (-1) g m μ).px, zy - (c8f1r px (-1) g m μ).py,
          zvx - (c8f1r px (-1) g m μ).vx, zvy - (c8f1r px (-1) g m μ).vy]) 1 = _
    rw [hv, h1, hpy]
  · show (c8f1r px (-1) g m μ).vx + ((Kmat (c8f1r px (-1) g m μ)).mulVec
        ![zx - (c8f1r px (-1) g m μ).px, zy - (c8f1r px (-1) g m μ).py,
          zvx - (c8f1r px (-1) g m μ).vx, zvy - (c8f1r px (-1) g m μ).vy]) 2 = _
    rw [hv, h2, hvx]
    ring

set_option maxHeartbeats 1000000 in
/-- For every believed friction in the clamp range and every observation
noise in range, the corrected `vx` of particle 1 stays below `-0.77`: the
collision reversal survives the Kalman correction. -/
lemma c8_vx_bound_a (μ e1 e3 : ℝ) (hμ0 : 0 ≤ μ) (hμ1 : μ ≤ 7/20)
    (he1l : -(1/200) ≤ e1) (he1u : e1 ≤ 1/200)
    (he3l : -(1/200) ≤ e3) (he3u : e3 ≤ 1/200) :
    (1 - μ * (2/125)) +
      ((4/25 - 8/3125 * μ) * c8w0 μ (-697/2500 + e1) (-2496/3125 + e3 - (1 - μ * (2/125)))
        + (625641/62500 - 8/25 * μ + 8/3125 * μ^2) *
            c8w2 μ (-697/2500 + e1) (-2496/3125 + e3 - (1 - μ * (2/125)))) ≤ -(77/100) := by
  have hD0 : c8D μ ≠ 0 := ne_of_gt (lt_of_lt_of_le one_pos (c8D_ge_one μ))
  have hDpos : (0:ℝ) < c8D μ := lt_of_lt_of_le one_pos (c8D_ge_one μ)
  have key : (1 - μ * (2/125)) +
      ((4/25 - 8/3125 * μ) * c8w0 μ (-697/2500 + e1) (-2496/3125 + e3 - (1 - μ * (2/125)))
        + (625641/62500 - 8/25 * μ + 8/3125 * μ^2) *
            c8w2 μ (-697/2500 + e1) (-2496/3125 + e3 - (1 - μ * (2/125)))) =
      (-97444623508101/1220703125000 + 79065401887/781250000 * e3 + 2/125 * e1
        + 100308993/39062500 * μ - 2022/625 * μ * e3 - 4/15625 * μ * e1
        - 5046912/244140625 * μ^2 + 2022/78125 * μ^2 * e3) / c8D μ := by
    rw [c8w0, c8w2]
    field_simp
    simp only [c8D]
    ring
  rw [key, div_le_iff₀ hDpos, c8D]
  nlinarith [mul_nonneg hμ0 (by linarith : (0:ℝ) ≤ 1/200 - e3),
      mul_nonneg hμ0 (by linarith : (0:ℝ) ≤ e3 + 1/200),
      mul_nonneg hμ0 (by linarith : (0:ℝ) ≤ 1/200 - e1),
      mul_nonneg hμ0 (by linarith : (0:ℝ) ≤ e1 + 1/200),
      mul_nonneg hμ0 (by linarith : (0:ℝ) ≤ 7/20 - μ),
      mul_nonneg (mul_nonneg hμ0 hμ0) (by linarith : (0:ℝ) ≤ 1/200 - e3),
      mul_nonneg (mul_nonneg hμ0 hμ0) (by linarith : (0:ℝ) ≤ e3 + 1/200),
      mul_nonneg (mul_nonneg hμ0 hμ0) (by linarith : (0:ℝ) ≤ 1/200 - e1),
      mul_nonneg (mul_nonneg hμ0 hμ0) (by linarith : (0:ℝ) ≤ e1 + 1/200),
      mul_nonneg hμ0 hμ0]

set_option maxHeartbeats 1000000 in
/-- The corrected `vx` of particle 2 stays above `0.77`. -/
lemma c8_vx_bound_b (μ e1 e3 : ℝ) (hμ0 : 0 ≤ μ) (hμ1 : μ ≤ 7/20)
    (he1l : -(1/200) ≤ e1) (he1u : e1 ≤ 1/200)
    (he3l : -(1/200) ≤ e3) (he3u : e3 ≤ 1/200) :
    (77/100 : ℝ) ≤ -(1 - μ * (2/125)) +
      ((4/25 - 8/3125 * μ) * c8w0 μ (697/2500 + e1) (2496/3125 + e3 + (1 - μ * (2/125)))
        + (625641/62500 - 8/25 * μ + 8/3125 * μ^2) *
            c8w2 μ (697/2500 + e1) (2496/3125 + e3 + (1 - μ * (2/125)))) := by
  have hD0 : c8D μ ≠ 0 := ne_of_gt (lt_of_lt_of_le one_pos (c8D_ge_one μ))
  have hDpos : (0:ℝ) < c8D μ := lt_of_lt_of_le one_pos (c8D_ge_one μ)
  have key : -(1 - μ * (2/125)) +
      ((4/25 - 8/3125 * μ) * c8w0 μ (697/2500 + e1) (2496/3125 + e3 + (1 - μ * (2/125)))
        + (625641/62500 - 8/25 * μ + 8/3125 * μ^2) *
            c8w2 μ (697/2500 + e1) (2496/3125 + e3 + (1 - μ * (2/125)))) =
      (97444623508101/1220703125000 + 79065401887/781250000 * e3 + 2/125 * e1
        - 100308993/39062500 * μ - 2022/625 * μ * e3 - 4/15625 * μ * e1
        + 5046912/244140625 * μ^2 + 2022/78125 * μ^2 * e3) / c8D μ := by
    rw [c8w0, c8w2]
    field_simp
    simp only [c8D]
    ring
  rw [key, le_div_iff₀ hDpos, c8D]
  nlinarith [mul_nonneg hμ0 (by linarith : (0:ℝ) ≤ 1/200 - e3),
      mul_nonneg hμ0 (by linarith : (0:ℝ) ≤ e3 + 1/200),
      mul_nonneg hμ0 (by linarith : (0:ℝ) ≤ 1/200 - e1),
      mul_nonneg hμ0 (by linarith : (0:ℝ) ≤ e1 + 1/200),
      mul_nonneg hμ0 (by linarith : (0:ℝ) ≤ 7/20 - μ),
      mul_nonneg (mul_nonneg hμ0 hμ0) (by linarith : (0:ℝ) ≤ 1/200 - e3),
      mul_nonneg (mul_nonneg hμ0 hμ0) (by linarith : (0:ℝ) ≤ e3 + 1/200),
      mul_nonneg (mul_nonneg hμ0 hμ0) (by linarith : (0:ℝ) ≤ 1/200 - e1),
      mul_nonneg (mul_nonneg hμ0 hμ0) (by linarith : (0:ℝ) ≤ e1 + 1/200),
      mul_nonneg hμ0 hμ0]

set_option maxHeartbeats 1000000 in
/-- The corrected `px` of particle 1 stays strictly inside the `[-5, 5]` box:
the boundary clamps do not fire. -/
lemma c8_px_bound_a (μ e1 e3 : ℝ) (hμ0 : 0 ≤ μ) (hμ1 : μ ≤ 7/20)
    (he1l : -(1/200) ≤ e1) (he1u : e1 ≤ 1/200)
    (he3l : -(1/200) ≤ e3) (he3u : e3 ≤ 1/200) :
    -5 < (-(3/20) + 2/125) +
      (125157/12500 * c8w0 μ (-697/2500 + e1) (-2496/3125 + e3 - (1 - μ * (2/125)))
        + (4/25 - 8/3125 * μ) *
            c8w2 μ (-697/2500 + e1) (-2496/3125 + e3 - (1 - μ * (2/125)))) ∧
    (-(3/20) + 2/125) +
      (125157/12500 * c8w0 μ (-697/2500 + e1) (-2496/3125 + e3 - (1 - μ * (2/125)))
        + (4/25 - 8/3125 * μ) *
            c8w2 μ (-697/2500 + e1) (-2496/3125 + e3 - (1 - μ * (2/125)))) < 5 := by
  have hD0 : c8D μ ≠ 0 := ne_of_gt (lt_of_lt_of_le one_pos (c8D_ge_one μ))
  have hDpos : (0:ℝ) < c8D μ := lt_of_lt_of_le one_pos (c8D_ge_one μ)
  have key : (-(3/20) + 2/125) +
      (125157/12500 * c8w0 μ (-697/2500 + e1) (-2496/3125 + e3 - (1 - μ * (2/125)))
        + (4/25 - 8/3125 * μ) *
            c8w2 μ (-697/2500 + e1) (-2496/3125 + e3 - (1 - μ * (2/125)))) =
      (-40958247431817/976562500000 + 2/125 * e3 + 79065581887/781250000 * e1
        + 64808859/48828125 * μ - 4/15625 * μ * e3 - 2002/625 * μ * e1
        - 518391/48828125 * μ^2 + 2002/78125 * μ^2 * e1) / c8D μ := by
    rw [c8w0, c8w2]
    field_simp
    simp only [c8D]
    ring
  constructor
  · rw [key, lt_div_iff₀ hDpos, c8D]
    nlinarith [mul_nonneg hμ0 (by linarith : (0:ℝ) ≤ 1/200 - e3),
      mul_nonneg hμ0 (by linarith : (0:ℝ) ≤ e3 + 1/200),
      mul_nonneg hμ0 (by linarith : (0:ℝ) ≤ 1/200 - e1),
      mul_nonneg hμ0 (by linarith : (0:ℝ) ≤ e1 + 1/200),
      mul_nonneg hμ0 (by linarith : (0:ℝ) ≤ 7/20 - μ),
      mul_nonneg (mul_nonneg hμ0 hμ0) (by linarith : (0:ℝ) ≤ 1/200 - e3),
      mul_nonneg (mul_nonneg hμ0 hμ0) (by linarith : (0:ℝ) ≤ e3 + 1/200),
      mul_nonneg (mul_nonneg hμ0 hμ0) (by linarith : (0:ℝ) ≤ 1/200 - e1),
      mul_nonneg (mul_nonneg hμ0 hμ0) (by linarith : (0:ℝ) ≤ e1 + 1/200),
      mul_nonneg hμ0 hμ0]
  · rw [key, div_lt_iff₀ hDpos, c8D]
    nlinarith [mul_nonneg hμ0 (by linarith : (0:ℝ) ≤ 1/200 - e3),
      mul_nonneg hμ0 (by linarith : (0:ℝ) ≤ e3 + 1/200),
      mul_nonneg hμ0 (by linarith : (0:ℝ) ≤ 1/200 - e1),
      mul_nonneg hμ0 (by linarith : (0:ℝ) ≤ e1 + 1/200),
      mul_nonneg hμ0 (by linarith : (0:ℝ) ≤ 7/20 - μ),
      mul_nonneg (mul_nonneg hμ0 hμ0) (by linarith : (0:ℝ) ≤ 1/200 - e3),
      mul_nonneg (mul_nonneg hμ0 hμ0) (by linarith : (0:ℝ) ≤ e3 + 1/200),
      mul_nonneg (mul_nonneg hμ0 hμ0) (by linarith : (0:ℝ) ≤ 1/200 - e1),
      mul_nonneg (mul_nonneg hμ0 hμ0) (by linarith : (0:ℝ) ≤ e1 + 1/200),
      mul_nonneg hμ0 hμ0]

set_option maxHeartbeats 1000000 in
/-- The corrected `px` of particle 2 stays strictly inside the `[-5, 5]` box:
the boundary clamps do not fire. -/
lemma c8_px_bound_b (μ e1 e3 : ℝ) (hμ0 : 0 ≤ μ) (hμ1 : μ ≤ 7/20)
    (he1l : -(1/200) ≤ e1) (he1u : e1 ≤ 1/200)
    (he3l : -(1/200) ≤ e3) (he3u : e3 ≤ 1/200) :
    -5 < (3/20 - 2/125) +
      (125157/12500 * c8w0 μ (697/2500 + e1) (2496/3125 + e3 + (1 - μ * (2/125)))
        + (4/25 - 8/3125 * μ) *
            c8w2 μ (697/2500 + e1) (2496/3125 + e3 + (1 - μ * (2/125)))) ∧
    (3/20 - 2/125) +
      (125157/12500 * c8w0 μ (697/2500 + e1) (2496/3125 + e3 + (1 - μ * (2/125)))
        + (4/25 - 8/3125 * μ) *
            c8w2 μ (697/2500 + e1) (2496/3125 + e3 + (1 - μ * (2/125)))) < 5 := by
  have hD0 : c8D μ ≠ 0 := ne_of_gt (lt_of_lt_of_le one_pos (c8D_ge_one μ))
  have hDpos : (0:ℝ) < c8D μ := lt_of_lt_of_le one_pos (c8D_ge_one μ)
  have key : (3/20 - 2/125) +
      (125157/12500 * c8w0 μ (697/2500 + e1) (2496/3125 + e3 + (1 - μ * (2/125)))
        + (4/25 - 8/3125 * μ) *
            c8w2 μ (697/2500 + e1) (2496/3125 + e3 + (1 - μ * (2/125)))) =
      (40958247431817/976562500000 + 2/125 * e3 + 79065581887/781250000 * e1
        - 64808859/48828125 * μ - 4/15625 * μ * e3 - 2002/625 * μ * e1
        + 518391/48828125 * μ^2 + 2002/78125 * μ^2 * e1) / c8D μ := by
    rw [c8w0, c8w2]
    field_simp
    simp only [c8D]
    ring
  constructor
  · rw [key, lt_div_iff₀ hDpos, c8D]
    nlinarith [mul_nonneg hμ0 (by linarith : (0:ℝ) ≤ 1/200 - e3),
      mul_nonneg hμ0 (by linarith : (0:ℝ) ≤ e3 + 1/200),
      mul_nonneg hμ0 (by linarith : (0:ℝ) ≤ 1/200 - e1),
      mul_nonneg hμ0 (by linarith : (0:ℝ) ≤ e1 + 1/200),
      mul_nonneg hμ0 (by linarith : (0:ℝ) ≤ 7/20 - μ),
      mul_nonneg (mul_nonneg hμ0 hμ0) (by linarith : (0:ℝ) ≤ 1/200 - e3),
      mul_nonneg (mul_nonneg hμ0 hμ0) (by linarith : (0:ℝ) ≤ e3 + 1/200),
      mul_nonneg (mul_nonneg hμ0 hμ0) (by linarith : (0:ℝ) ≤ 1/200 - e1),
      mul_nonneg (mul_nonneg hμ0 hμ0) (by linarith : (0:ℝ) ≤ e1 + 1/200),
      mul_nonneg hμ0 hμ0]
  · rw [key, div_lt_iff₀ hDpos, c8D]
    nlinarith [mul_nonneg hμ0 (by linarith : (0:ℝ) ≤ 1/200 - e3),
      mul_nonneg hμ0 (by linarith : (0:ℝ) ≤ e3 + 1/200),
      mul_nonneg hμ0 (by linarith : (0:ℝ) ≤ 1/200 - e1),
      mul_nonneg hμ0 (by linarith : (0:ℝ) ≤ e1 + 1/200),
      mul_nonneg hμ0 (by linarith : (0:ℝ) ≤ 7/20 - μ),
      mul_nonneg (mul_nonneg hμ0 hμ0) (by linarith : (0:ℝ) ≤ 1/200 - e3),
      mul_nonneg (mul_nonneg hμ0 hμ0) (by linarith : (0:ℝ) ≤ e3 + 1/200),
      mul_nonneg (mul_nonneg hμ0 hμ0) (by linarith : (0:ℝ) ≤ 1/200 - e1),
      mul_nonneg (mul_nonneg hμ0 hμ0) (by linarith : (0:ℝ) ≤ e1 + 1/200),
      mul_nonneg hμ0 hμ0]

set_option maxHeartbeats 1000000 in
/-- The corrected `py` of either particle stays strictly inside the `[-5, 5]`
box, for every believed gravity in the clamp range. -/
lemma c8_py_bound (μ e2 e4 g : ℝ) (hμ0 : 0 ≤ μ) (hμ1 : μ ≤ 7/20)
    (he2l : -(1/200) ≤ e2) (he2u : e2 ≤ 1/200)
    (he4l : -(1/200) ≤ e4) (he4u : e4 ≤ 1/200)
    (hg1 : 24/5 ≤ g) (hg2 : g ≤ 74/5) :
    -5 < -((2/15625) * g) +
      (1955578141/195312500 * c8w1 μ (-98/78125 + e2 + (2/15625) * g) (-98/625 + e4 + (2/125) * g)
        + (62504/390625 - 8/3125 * μ) *
            c8w3 μ (-98/78125 + e2 + (2/15625) * g) (-98/625 + e4 + (2/125) * g)) ∧
    -((2/15625) * g) +
      (1955578141/195312500 * c8w1 μ (-98/78125 + e2 + (2/15625) * g) (-98/625 + e4 + (2/125) * g)
        + (62504/390625 - 8/3125 * μ) *
            c8w3 μ (-98/78125 + e2 + (2/15625) * g) (-98/625 + e4 + (2/125) * g)) < 5 := by
  have hDp0 : c8Dp μ ≠ 0 := ne_of_gt (lt_of_lt_of_le one_pos (c8Dp_ge_one μ))
  have hDppos : (0:ℝ) < c8Dp μ := lt_of_lt_of_le one_pos (c8Dp_ge_one μ)
  have key : -((2/15625) * g) +
      (1955578141/195312500 * c8w1 μ (-98/78125 + e2 + (2/15625) * g) (-98/625 + e4 + (2/125) * g)
        + (62504/390625 - 8/3125 * μ) *
            c8w3 μ (-98/78125 + e2 + (2/15625) * g) (-98/625 + e4 + (2/125) * g)) =
      (-98779332776999/762939453125000 + 989/7812500 * g + 31252/1953125 * e4
        + 1976839750551/19531250000 * e2 + 387023434364/95367431640625 * μ
        - 4/15625 * μ * e4 - 3910156218/1220703125 * μ * e2
        - 383195315636/11920928955078125 * μ^2 - 8/244140625 * μ^2 * g
        + 3910156282/152587890625 * μ^2 * e2) / c8Dp μ := by
    rw [c8w1, c8w3]
    field_simp
    simp only [c8Dp]
    ring
  constructor
  · rw [key, lt_div_iff₀ hDppos, c8Dp]
    nlinarith [mul_nonneg hμ0 (by linarith : (0:ℝ) ≤ 1/200 - e2),
      mul_nonneg hμ0 (by linarith : (0:ℝ) ≤ e2 + 1/200),
      mul_nonneg hμ0 (by linarith : (0:ℝ) ≤ 1/200 - e4),
      mul_nonneg hμ0 (by linarith : (0:ℝ) ≤ e4 + 1/200),
      mul_nonneg hμ0 (by linarith : (0:ℝ) ≤ 7/20 - μ),
      mul_nonneg hμ0 (by linarith : (0:ℝ) ≤ g - 24/5),
      mul_nonneg hμ0 (by linarith : (0:ℝ) ≤ 74/5 - g),
      mul_nonneg (mul_nonneg hμ0 hμ0) (by linarith : (0:ℝ) ≤ 1/200 - e2),
      mul_nonneg (mul_nonneg hμ0 hμ0) (by linarith : (0:ℝ) ≤ e2 + 1/200),
      mul_nonneg (mul_nonneg hμ0 hμ0) (by linarith : (0:ℝ) ≤ g - 24/5),
      mul_nonneg (mul_nonneg hμ0 hμ0) (by linarith : (0:ℝ) ≤ 74/5 - g),
      mul_nonneg hμ0 hμ0]
  · rw [key, div_lt_iff₀ hDppos, c8Dp]
    nlinarith [mul_nonneg hμ0 (by linarith : (0:ℝ) ≤ 1/200 - e2),
      mul_nonneg hμ0 (by linarith : (0:ℝ) ≤ e2 + 1/200),
      mul_nonneg hμ0 (by linarith : (0:ℝ) ≤ 1/200 - e4),
      mul_nonneg hμ0 (by linarith : (0:ℝ) ≤ e4 + 1/200),
      mul_nonneg hμ0 (by linarith : (0:ℝ) ≤ 7/20 - μ),
      mul_nonneg hμ0 (by linarith : (0:ℝ) ≤ g - 24/5),
      mul_nonneg hμ0 (by linarith : (0:ℝ) ≤ 74/5 - g),
      mul_nonneg (mul_nonneg hμ0 hμ0) (by linarith : (0:ℝ) ≤ 1/200 - e2),
      mul_nonneg (mul_nonneg hμ0 hμ0) (by linarith : (0:ℝ) ≤ e2 + 1/200),
      mul_nonneg (mul_nonneg hμ0 hμ0) (by linarith : (0:ℝ) ≤ g - 24/5),
      mul_nonneg (mul_nonneg hμ0 hμ0) (by linarith : (0:ℝ) ≤ 74/5 - g),
      mul_nonneg hμ0 hμ0]

set_option maxHeartbeats 1000000 in
lemma c8_tickFilter_ra (r1 r2 r3 : ℝ) (nz : Rand4) :
    tickFilter true (c8q1r r1 r2 r3) nz =
      update (c8f1r (-(3/20)) 1 (gclamp r1) (mclamp r2) (muclamp r3))
        (-258/625 + (nz.r1 - 1/2) * (1/100))
        (-98/78125 + (nz.r2 - 1/2) * (1/100))
        (-2496/3125 + (nz.r3 - 1/2) * (1/100))
        (-98/625 + (nz.r4 - 1/2) * (1/100)) := by
  rw [tickFilter, c8q1r_filter]
  norm_num [tickObs, applyPhysics, c8q1r, c8p1r, createParticle, c8f1r, c8f0r,
    mkFilter, gclamp, mclamp, muclamp]

set_option maxHeartbeats 1000000 in
lemma c8_tickFilter_rb (s1 s2 s3 : ℝ) (nz : Rand4) :
    tickFilter true (c8q2r s1 s2 s3) nz =
      update (c8f1r (3/20) (-1) (gclamp s1) (mclamp s2) (muclamp s3))
        (258/625 + (nz.r1 - 1/2) * (1/100))
        (-98/78125 + (nz.r2 - 1/2) * (1/100))
        (2496/3125 + (nz.r3 - 1/2) * (1/100))
        (-98/625 + (nz.r4 - 1/2) * (1/100)) := by
  rw [tickFilter, c8q2r_filter]
  norm_num [tickObs, applyPhysics, c8q2r, c8p2r, createParticle, c8f1r, c8f0r,
    mkFilter, gclamp, mclamp, muclamp]

set_option maxHeartbeats 1000000 in
/-- After one learning-enabled tick, post-collision particle 1 keeps a
leftward velocity (at most `-0.77`), whatever the spawn draws and the
observation noise, and triggers no boundary event. -/
lemma c8_tickOn_ra (r1 r2 r3 : ℝ) (hr1a : 0 ≤ r1) (hr1b : r1 ≤ 1) (hr3b : r3 ≤ 1)
    (nz : Rand4) (h : rand4InRange nz) :
    (tickParticle true (c8q1r r1 r2 r3) nz).1.velocity.x ≤ -(77/100) ∧
    (tickParticle true (c8q1r r1 r2 r3) nz).2 = [] := by
  obtain ⟨a1, a2, a3, a4, a5, a6, a7, a8⟩ := h
  obtain ⟨hg1, hg2⟩ := gclamp_mem r1 hr1a hr1b
  obtain ⟨hm0, hm1⟩ := muclamp_mem r3 hr3b
  have hf := c8_tickFilter_ra r1 r2 r3 nz
  obtain ⟨hpx, hpy, hvx⟩ := c8_upd_ra (-(3/20)) (gclamp r1) (mclamp r2) (muclamp r3)
    (-258/625 + (nz.r1 - 1/2) * (1/100)) (-98/78125 + (nz.r2 - 1/2) * (1/100))
    (-2496/3125 + (nz.r3 - 1/2) * (1/100)) (-98/625 + (nz.r4 - 1/2) * (1/100))
  rw [show (-258/625 + (nz.r1 - 1/2) * (1/100)) - (-(3/20) + 2/125) =
      -697/2500 + (nz.r1 - 1/2) * (1/100) from by ring] at hpx hvx
  have hbx := c8_px_bound_a (muclamp r3) ((nz.r1 - 1/2) * (1/100))
    ((nz.r3 - 1/2) * (1/100)) hm0 hm1 (by linarith) (by linarith) (by linarith)
    (by linarith)
  have hby := c8_py_bound (muclamp r3) ((nz.r2 - 1/2) * (1/100))
    ((nz.r4 - 1/2) * (1/100)) (gclamp r1) hm0 hm1 (by linarith) (by linarith)
    (by linarith) (by linarith) hg1 hg2
  have hvb := c8_vx_bound_a (muclamp r3) ((nz.r1 - 1/2) * (1/100))
    ((nz.r3 - 1/2) * (1/100)) hm0 hm1 (by linarith) (by linarith) (by linarith)
    (by linarith)
  have hx1 : ¬ (tickFilter true (c8q1r r1 r2 r3) nz).px < -5 := by
    rw [hf, hpx]; push_neg; linarith [hbx.1]
  have hx2 : ¬ (tickFilter true (c8q1r r1 r2 r3) nz).px > 5 := by
    rw [hf, hpx]; push_neg; linarith [hbx.2]
  have hy1 : ¬ (tickFilter true (c8q1r r1 r2 r3) nz).py < -5 := by
    rw [hf, hpy]; push_neg; linarith [hby.1]
  have hy2 : ¬ (tickFilter true (c8q1r r1 r2 r3) nz).py > 5 := by
    rw [hf, hpy]; push_neg; linarith [hby.2]
  have hz1 : ¬ (c8q1r r1 r2 r3).position.z < -5 := by
    norm_num [c8q1r, c8p1r, createParticle]
  have hz2 : ¬ (c8q1r r1 r2 r3).position.z > 5 := by
    norm_num [c8q1r, c8p1r, createParticle]
  obtain ⟨hv, he⟩ := tickParticle_noClamp true (c8q1r r1 r2 r3) nz hx1 hx2 hy1 hy2 hz1 hz2
  refine ⟨?_, he⟩
  have hvx2 : (tickParticle true (c8q1r r1 r2 r3) nz).1.velocity.x =
      (tickFilter true (c8q1r r1 r2 r3) nz).vx := by
    rw [hv]
  rw [hvx2, hf, hvx]
  exact hvb

set_option maxHeartbeats 1000000 in
/-- After one learning-enabled tick, post-collision particle 2 keeps a
rightward velocity (at least `0.77`). -/
lemma c8_tickOn_rb (s1 s2 s3 : ℝ) (hs1a : 0 ≤ s1) (hs1b : s1 ≤ 1) (hs3b : s3 ≤ 1)
    (nz : Rand4) (h : rand4InRange nz) :
    (77/100 : ℝ) ≤ (tickParticle true (c8q2r s1 s2 s3) nz).1.velocity.x ∧
    (tickParticle true (c8q2r s1 s2 s3) nz).2 = [] := by
  obtain ⟨a1, a2, a3, a4, a5, a6, a7, a8⟩ := h
  obtain ⟨hg1, hg2⟩ := gclamp_mem s1 hs1a hs1b
  obtain ⟨hm0, hm1⟩ := muclamp_mem s3 hs3b
  have hf := c8_tickFilter_rb s1 s2 s3 nz
  obtain ⟨hpx, hpy, hvx⟩ := c8_upd_rb (3/20) (gclamp s1) (mclamp s2) (muclamp s3)
    (258/625 + (nz.r1 - 1/2) * (1/100)) (-98/78125 + (nz.r2 - 1/2) * (1/100))
    (2496/3125 + (nz.r3 - 1/2) * (1/100)) (-98/625 + (nz.r4 - 1/2) * (1/100))
  rw [show (258/625 + (nz.r1 - 1/2) * (1/100)) - (3/20 - 2/125) =
      697/2500 + (nz.r1 - 1/2) * (1/100) from by ring] at hpx hvx
  have hbx := c8_px_bound_b (muclamp s3) ((nz.r1 - 1/2) * (1/100))
    ((nz.r3 - 1/2) * (1/100)) hm0 hm1 (by linarith) (by linarith) (by linarith)
    (by linarith)
  have hby := c8_py_bound (muclamp s3) ((nz.r2 - 1/2) * (1/100))
    ((nz.r4 - 1/2) * (1/100)) (gclamp s1) hm0 hm1 (by linarith) (by linarith)
    (by linarith) (by linarith) hg1 hg2
  have hvb := c8_vx_bound_b (muclamp s3) ((nz.r1 - 1/2) * (1/100))
    ((nz.r3 - 1/2) * (1/100)) hm0 hm1 (by linarith) (by linarith) (by linarith)
    (by linarith)
  have hx1 : ¬ (tickFilter true (c8q2r s1 s2 s3) nz).px < -5 := by
    rw [hf, hpx]; push_neg; linarith [hbx.1]
  have hx2 : ¬ (tickFilter true (c8q2r s1 s2 s3) nz).px > 5 := by
    rw [hf, hpx]; push_neg; linarith [hbx.2]
  have hy1 : ¬ (tickFilter true (c8q2r s1 s2 s3) nz).py < -5 := by
    rw [hf, hpy]; push_neg; linarith [hby.1]
  have hy2 : ¬ (tickFilter true (c8q2r s1 s2 s3) nz).py > 5 := by
    rw [hf, hpy]; push_neg; linarith [hby.2]
  have hz1 : ¬ (c8q2r s1 s2 s3).position.z < -5 := by
    norm_num [c8q2r, c8p2r, createParticle]
  have hz2 : ¬ (c8q2r s1 s2 s3).position.z > 5 := by
    norm_num [c8q2r, c8p2r, createParticle]
  obtain ⟨hv, he⟩ := tickParticle_noClamp true (c8q2r s1 s2 s3) nz hx1 hx2 hy1 hy2 hz1 hz2
  refine ⟨?_, he⟩
  have hvx2 : (tickParticle true (c8q2r s1 s2 s3) nz).1.velocity.x =
      (tickFilter true (c8q2r s1 s2 s3) nz).vx := by
    rw [hv]
  rw [hvx2, hf, hvx]
  exact hvb

/-- All three raw spawn draws of a particle lie in `[0, 1]` (the range of
`Math.random()`). -/
def rand3InRange (a b c : ℝ) : Prop :=
  (0 ≤ a ∧ a ≤ 1) ∧ (0 ≤ b ∧ b ≤ 1) ∧ (0 ≤ c ∧ c ≤ 1)

set_option maxHeartbeats 1000000 in
lemma c8_tickOff_q1 : (tickParticle false c8q1 c8nz).1.velocity.x = 0.9984 := by
  rw [tickParticle]
  norm_num [c8q1, c8p1, c8nz, createParticle, mkFilter, predict, applyPhysics,
    tickFilter, tickObs, applyBoundsX, applyBoundsY, applyBoundsZ, min_def, max_def]

set_option maxHeartbeats 1000000 in
lemma c8_tickOff_q2 : (tickParticle false c8q2 c8nz).1.velocity.x = -0.9984 := by
  rw [tickParticle]
  norm_num [c8q2, c8p2, c8nz, createParticle, mkFilter, predict, applyPhysics,
    tickFilter, tickObs, applyBoundsX, applyBoundsY, applyBoundsZ, min_def, max_def]

/-- C8 (counterexample): with learning disabled, the tick overwrites each
particle's velocity with its Kalman filter's predicted velocity — the filter
never saw the collision impulse — so after one tick the pair placed at
distance 0.3 moving toward each other at speed 1 is still approaching
(relative x-velocity `-2·(1 - 0.1·0.016) < 0` along the connecting normal),
refuting the reversal claim for the tick as such. -/
theorem claim_C8_counterexample :
    (c8TickOff.1.getD 1 c8p2).velocity.x - (c8TickOff.1.getD 0 c8p1).velocity.x < 0 := by
  have h : c8TickOff.1 = [(tickParticle false c8q1 c8nz).1, (tickParticle false c8q2 c8nz).1] := by
    rw [c8TickOff, psUpdate]
    simp only [c8_collision_phase, List.zipWith, List.map]
  rw [h]
  simp only [List.getD_cons_succ, List.getD_cons_zero, c8_tickOff_q1, c8_tickOff_q2]
  norm_num

/-- C8 (amended): with learning ENABLED, for every spawn belief draw and
every observation-noise draw in `Math.random()`'s range, one tick of the
two-particle scenario reverses the relative velocity along the connecting
normal (the x-axis): the relative x-velocity goes from `-2` (approaching)
to at least `1.54` (separating), and the returned event list contains the
pair's `CollisionEvent` with impact `2 ≥ 0.5`. -/
theorem claim_C8_learning_tick_reverses (r1 r2 r3 s1 s2 s3 : ℝ) (n1 n2 : Rand4)
    (hr : rand3InRange r1 r2 r3) (hs : rand3InRange s1 s2 s3)
    (h1 : rand4InRange n1) (h2 : rand4InRange n2) :
    0 < ((psUpdate true [c8p1r r1 r2 r3, c8p2r s1 s2 s3] [n1, n2]).1.getD 1
          (c8p2r s1 s2 s3)).velocity.x -
        ((psUpdate true [c8p1r r1 r2 r3, c8p2r s1 s2 s3] [n1, n2]).1.getD 0
          (c8p1r r1 r2 r3)).velocity.x ∧
    c8ev ∈ (psUpdate true [c8p1r r1 r2 r3, c8p2r s1 s2 s3] [n1, n2]).2 ∧
    (1/2 : ℝ) ≤ c8ev.impact := by
  have hps1 : (psUpdate true [c8p1r r1 r2 r3, c8p2r s1 s2 s3] [n1, n2]).1 =
      [(tickParticle true (c8q1r r1 r2 r3) n1).1,
       (tickParticle true (c8q2r s1 s2 s3) n2).1] := by
    rw [psUpdate]
    simp only [c8_collision_phase_r, List.zipWith, List.map]
  obtain ⟨hv1, he1⟩ := c8_tickOn_ra r1 r2 r3 hr.1.1 hr.1.2 hr.2.2.2 n1 h1
  obtain ⟨hv2, he2⟩ := c8_tickOn_rb s1 s2 s3 hs.1.1 hs.1.2 hs.2.2.2 n2 h2
  refine ⟨?_, ?_, by norm_num [c8ev]⟩
  · rw [hps1]
    simp only [List.getD_cons_zero, List.getD_cons_succ]
    linarith
  · rw [psUpdate]
    simp only [c8_collision_phase_r, List.zipWith, List.map, he1, he2, List.flatten,
      List.append_nil, List.nil_append, List.cons_append, List.singleton_append]
    exact List.mem_cons_self _ _

theorem claim_C8_learning_tick_reverses_witness :
    ((rand3InRange 0.5 0.5 0.5 ∧ rand4InRange c8nz) ∧
     (0 < ((psUpdate true [c8p1r 0.5 0.5 0.5, c8p2r 0.5 0.5 0.5] [c8nz, c8nz]).1.getD 1
            (c8p2r 0.5 0.5 0.5)).velocity.x -
          ((psUpdate true [c8p1r 0.5 0.5 0.5, c8p2r 0.5 0.5 0.5] [c8nz, c8nz]).1.getD 0
            (c8p1r 0.5 0.5 0.5)).velocity.x ∧
      c8ev ∈ (psUpdate true [c8p1r 0.5 0.5 0.5, c8p2r 0.5 0.5 0.5] [c8nz, c8nz]).2 ∧
      (1/2 : ℝ) ≤ c8ev.impact)) :=
  ⟨⟨by norm_num [rand3InRange], by norm_num [rand4InRange, c8nz]⟩,
   claim_C8_learning_tick_reverses 0.5 0.5 0.5 0.5 0.5 0.5 c8nz c8nz
     (by norm_num [rand3InRange]) (by norm_num [rand3InRange])
     (by norm_num [rand4InRange, c8nz]) (by norm_num [rand4InRange, c8nz])⟩

/-- C6 (counterexample): calling `updateGlobalPosterior` when zero particle
beliefs are registered is NOT a no-op: the method registers the passed belief
before the empty-set check (so that check is unreachable) and recomputes the
posterior from that single belief — here the gravity mean moves from the
prior 9.8 to the belief's 0. -/
theorem claim_C6_counterexample :
    (updateGlobalPosterior initGlobalPosterior [] "p" ⟨0, 1, 0.1, 1⟩).1.gravity.mean ≠
      initGlobalPosterior.gravity.mean := by
  simp only [updateGlobalPosterior, setBelief, aggOne, initGlobalPosterior,
    List.map_cons, List.map_nil, List.length_cons, List.length_nil, List.sum_cons,
    List.sum_nil, List.zipWith_cons_cons, List.zipWith_nil_right]
  norm_num

/-- C6 (amended): on an empty belief map the call registers the given belief
and recomputes the posterior from it (the per-constant posterior means become
that particle's belief values and the sample lists hold exactly its values);
the prior posterior is NOT left unchanged. -/
theorem claim_C6_update_registers (gp : GlobalPosterior) (id : String) (b : Belief)
    (h : b.variance + 0.01 ≠ 0) :
    (updateGlobalPosterior gp [] id b).2 = [(id, b)] ∧
    (updateGlobalPosterior gp [] id b).1.gravity.mean = b.g ∧
    (updateGlobalPosterior gp [] id b).1.mass.mean = b.m ∧
    (updateGlobalPosterior gp [] id b).1.friction.mean = b.μ ∧
    (updateGlobalPosterior gp [] id b).1.gravity.samples = [b.g] := by
  refine ⟨rfl, ?_, ?_, ?_, rfl⟩ <;>
  · simp only [updateGlobalPosterior, setBelief, aggOne, List.map_cons, List.map_nil,
      List.length_cons, List.length_nil, List.sum_cons, List.sum_nil,
      List.zipWith_cons_cons, List.zipWith_nil_right]
    norm_num
    have h2 : b.variance * 100 + 1 ≠ 0 := fun h0 => h (by norm_num; linarith)
    field_simp [h2]
    try ring

theorem claim_C6_update_registers_witness :
    ((Belief.mk 1 2 0.5 3).variance + 0.01 ≠ 0) ∧
    (updateGlobalPosterior initGlobalPosterior [] "q" (Belief.mk 1 2 0.5 3)).1.gravity.mean
      = (Belief.mk 1 2 0.5 3).g :=
  ⟨by norm_num,
   (claim_C6_update_registers initGlobalPosterior "q" (Belief.mk 1 2 0.5 3)
     (by norm_num)).2.1⟩

/-- C9: on every observation buffer, the gravity and velocity discovery
functions return `none` exactly when the buffer holds fewer than 10 samples,
and the position discovery returns `none` exactly when it holds fewer than
20; with enough samples each returns an equation (and, being total
functions of the buffer, they never throw). -/
theorem claim_C9_discovery_thresholds (obs : List Obs) :
    (discoverGravityEquation obs = none ↔ obs.length < 10) ∧
    (discoverVelocityEquation obs = none ↔ obs.length < 10) ∧
    (discoverPositionEquation obs = none ↔ obs.length < 20) := by
  refine ⟨?_, ?_, ?_⟩
  · rw [discoverGravityEquation]
    split_ifs with h <;> simp [h]
  · rw [discoverVelocityEquation]
    split_ifs with h <;> simp [h]
  · rw [discoverPositionEquation]
    split_ifs with h <;> simp [h]

/-- C10: one call to `checkParticleCollisions` preserves the componentwise
vector sum of all particle velocities: every resolved pair receives equal and
opposite half-impulses, so total momentum under the equal-mass assumption is
unchanged. -/
theorem claim_C10_momentum_conserved (ps : List SParticle) :
    velSum (checkParticleCollisions ps).1 = velSum ps := by
  obtain ⟨hx, hy, hz⟩ := checkPC_velSum ps
  simp only [velSum, V3.mk.injEq]
  exact ⟨hx, hy, hz⟩

/-- C4: symmetry of the covariance is an invariant: if `P` is symmetric then
it stays symmetric after `predict` (`F·P·Fᵀ + Q` with diagonal `Q`) and after
`update` (`(I - K·H)·P`, in both branches of the 4x4 inverse), under exact
arithmetic. -/
theorem claim_C4_symmetry_invariant (k : KF) (zx zy zvx zvy : ℝ) (h : k.P.IsSymm) :
    (predict k).P.IsSymm ∧ (update k zx zy zvx zvy).P.IsSymm :=
  ⟨predict_isSymm h, update_isSymm h zx zy zvx zvy⟩

theorem claim_C4_symmetry_invariant_witness :
    (mkFilter 0 0 0 0 9.8 1 0.1 10 0.016).P.IsSymm ∧
    ((predict (mkFilter 0 0 0 0 9.8 1 0.1 10 0.016)).P.IsSymm ∧
     (update (mkFilter 0 0 0 0 9.8 1 0.1 10 0.016) 0 0 0 0).P.IsSymm) :=
  ⟨Matrix.isSymm_diagonal _,
   claim_C4_symmetry_invariant _ 0 0 0 0 (Matrix.isSymm_diagonal _)⟩

/-- C5: the 4x4 inverse routine divides by the determinant only when its
magnitude is at least `1e-10`; in that branch it produces a genuine two-sided
inverse, and otherwise it returns the identity matrix, so `update` never
divides by a near-zero determinant. -/
theorem claim_C5_inverse_guard (A : Mat 4 4) :
    (|det4 A| < 1e-10 ∧ inv4 A = 1) ∨
    (1e-10 ≤ |det4 A| ∧ inv4 A * A = 1 ∧ A * inv4 A = 1) := by
  by_cases h : |det4 A| < 1e-10
  · exact Or.inl ⟨h, by rw [inv4, if_pos h]⟩
  · exact Or.inr ⟨le_of_not_lt h, inv4_mul A h, mul_inv4 A h⟩

end

end Inferaa
